import Mathlib

/-!
# learnopengl: a verification development of `src/main.cpp`

The program is a single translation unit: a GLFW window, one shader pair, one
triangle mesh and a clear/draw loop whose colour follows held keys.

Embedding.  Every call into GLFW, GLEW or OpenGL is recorded, in program
order, in `World.calls`.  Values the libraries hand back (object names,
compile and link status, info logs, the errors a call raises, the key events
of a poll, the clock, the uniform location) are inputs: the fields of `Env`
and `Frame`.  `GLfloat` arithmetic is exact (`ℚ`).  `int` is 32 bits,
`size_t` and `GLsizeiptr` are 64 bits (LP64), `GLfloat` and `GLuint` are 4
bytes.  A write outside `KEY_PRESSED[1024]` is undefined behaviour: the
callback has no result there (`none`) and the run's outcome is
`Outcome.undefined`.
-/

namespace LearnOpenGL

set_option linter.unusedVariables false

/-! ## Library constants (GL/glew.h, GLFW/glfw3.h) -/

def GL_NO_ERROR : Nat := 0
def GL_INVALID_ENUM : Nat := 0x0500
def GL_INVALID_VALUE : Nat := 0x0501
def GL_INVALID_OPERATION : Nat := 0x0502
def GL_STACK_OVERFLOW : Nat := 0x0503
def GL_STACK_UNDERFLOW : Nat := 0x0504
def GL_OUT_OF_MEMORY : Nat := 0x0505
def GL_INVALID_FRAMEBUFFER_OPERATION : Nat := 0x0506

def GL_FALSE : Nat := 0
def GL_TRUE : Nat := 1
def GL_TRIANGLES : Nat := 0x0004
def GL_FRONT_AND_BACK : Nat := 0x0408
def GL_UNSIGNED_INT : Nat := 0x1405
def GL_FLOAT : Nat := 0x1406
def GL_FILL : Nat := 0x1B02
def GL_COLOR_BUFFER_BIT : Nat := 0x4000
def GL_ARRAY_BUFFER : Nat := 0x8892
def GL_ELEMENT_ARRAY_BUFFER : Nat := 0x8893
def GL_STATIC_DRAW : Nat := 0x88E4
def GL_FRAGMENT_SHADER : Nat := 0x8B30
def GL_VERTEX_SHADER : Nat := 0x8B31
def GL_COMPILE_STATUS : Nat := 0x8B81
def GL_LINK_STATUS : Nat := 0x8B82

def GLFW_RELEASE : Int := 0
def GLFW_PRESS : Int := 1
def GLFW_REPEAT : Int := 2
def GLFW_KEY_UNKNOWN : Int := -1
def GLFW_KEY_A : Int := 65
def GLFW_KEY_D : Int := 68
def GLFW_KEY_E : Int := 69
def GLFW_KEY_Q : Int := 81
def GLFW_KEY_S : Int := 83
def GLFW_KEY_W : Int := 87
def GLFW_KEY_ESCAPE : Int := 256
def GLFW_KEY_LAST : Int := 348
def GLFW_RESIZABLE : Int := 0x00020003
def GLFW_CONTEXT_VERSION_MAJOR : Int := 0x00022002
def GLFW_CONTEXT_VERSION_MINOR : Int := 0x00022003
def GLFW_OPENGL_FORWARD_COMPAT : Int := 0x00022006
def GLFW_OPENGL_PROFILE : Int := 0x00022008
def GLFW_OPENGL_CORE_PROFILE : Int := 0x00032001

/-! ## Calls into the libraries -/

/-- Data handed to `glBufferData`: the array the pointer argument points into. -/
inductive Blob where
  | floats (xs : List ℚ)
  | uints (xs : List Nat)
  deriving DecidableEq

/-- One call into GLFW, GLEW or OpenGL, with the arguments the program passes
(the window pointer, of which there is one, and output pointers are left out). -/
inductive Call where
  | glfwInit
  | glfwWindowHint (hint value : Int)
  | glfwCreateWindow (width height : Int) (title : String)
  | glfwTerminate
  | glfwMakeContextCurrent
  | glewInit
  | glfwGetFramebufferSize
  | glfwSetKeyCallback
  | glfwWindowShouldClose
  | glfwPollEvents
  | glfwGetTime
  | glfwSetWindowShouldClose (value : Nat)
  | glfwSwapBuffers
  | glGetError
  | glViewport (x y width height : Int)
  | glCreateShader (kind : Nat)
  | glShaderSource (shader : Nat) (count : Int) (src : String)
  | glCompileShader (shader : Nat)
  | glGetShaderiv (shader pname : Nat)
  | glGetShaderInfoLog (shader : Nat) (maxLength : Int)
  | glCreateProgram
  | glAttachShader (program shader : Nat)
  | glLinkProgram (program : Nat)
  | glGetProgramiv (program pname : Nat)
  | glGetProgramInfoLog (program : Nat) (maxLength : Int)
  | glDeleteShader (shader : Nat)
  | glUseProgram (program : Nat)
  | glGenVertexArrays (n : Int)
  | glGenBuffers (n : Int)
  | glBindVertexArray (array : Nat)
  | glBindBuffer (target buffer : Nat)
  | glBufferData (target : Nat) (size : Int) (data : Blob) (usage : Nat)
  | glVertexAttribPointer (index : Nat) (size : Int) (kind normalized : Nat)
      (stride : Int) (pointer : Nat)
  | glEnableVertexAttribArray (index : Nat)
  | glPolygonMode (face mode : Nat)
  | glDrawElements (mode : Nat) (count : Int) (kind indices : Nat)
  | glClearColor (r g b a : ℚ)
  | glClear (mask : Nat)
  | glGetUniformLocation (program : Nat) (name : String)
  | glUniform4f (location : Int) (v0 v1 v2 v3 : ℚ)
  deriving DecidableEq

/-! ## Program state and environment -/

/-- The globals of `main.cpp` (`KEY_PRESSED`, `deltaTime`, `lastFrame`,
`success`, `infoLog`), the window's close flag, the pending OpenGL errors, and
what the run has done so far: the calls made and the text written to
`std::cout` (`out`) and `std::cerr` (`err`), one entry per output statement. -/
structure World where
  KEY_PRESSED : Fin 1024 → Bool
  deltaTime : ℚ
  lastFrame : ℚ
  success : Int
  infoLog : String
  shouldClose : Bool
  errq : List Nat
  calls : List Call
  out : List String
  err : List String

/-- The state at program start: globals zero-initialised, nothing done yet. -/
def World.start : World where
  KEY_PRESSED := fun _ => false
  deltaTime := 0
  lastFrame := 0
  success := 0
  infoLog := ""
  shouldClose := false
  errq := []
  calls := []
  out := []
  err := []

/-- What the libraries answer.  `raises n c` are the error codes the call `c`,
made after `n` earlier calls, adds to the pending errors. -/
structure Env where
  file : String
  windowOk : Bool
  glewOk : Bool
  fbWidth : Int
  fbHeight : Int
  createShader : Nat → Nat
  compileStatus : Nat → Int
  shaderInfoLog : Nat → String
  createProgram : Nat
  linkStatus : Nat → Int
  programInfoLog : Nat → String
  genVertexArray : Nat
  genBufferFirst : Nat
  genBufferSecond : Nat
  raises : Nat → Call → List Nat

/-- A GLFW call: recorded, raises no OpenGL error. -/
def glfw (c : Call) (w : World) : World :=
  { w with calls := w.calls ++ [c] }

/-- An OpenGL call: recorded, and the errors it raises become pending. -/
def gl (env : Env) (c : Call) (w : World) : World :=
  { w with
    calls := w.calls ++ [c]
    errq := w.errq ++ (env.raises w.calls.length c).filter (fun e => e != GL_NO_ERROR) }

/-! ## `glCheckError_` (main.cpp 20-40) -/

/-- The `switch` of `glCheckError_`: `error` stays empty for a code with no case. -/
def errorString (errorCode : Nat) : String :=
  if errorCode = GL_INVALID_ENUM then "INVALID_ENUM"
  else if errorCode = GL_INVALID_VALUE then "INVALID_VALUE"
  else if errorCode = GL_INVALID_OPERATION then "INVALID_OPERATION"
  else if errorCode = GL_STACK_OVERFLOW then "STACK_OVERFLOW"
  else if errorCode = GL_STACK_UNDERFLOW then "STACK_UNDERFLOW"
  else if errorCode = GL_OUT_OF_MEMORY then "OUT_OF_MEMORY"
  else if errorCode = GL_INVALID_FRAMEBUFFER_OPERATION then "INVALID_FRAMEBUFFER_OPERATION"
  else ""

/-- The text of
`std::cout << error << " | " << file << " (" << line << ")" << std::endl`. -/
def errorLine (file : String) (line : Int) (errorCode : Nat) : String :=
  errorString errorCode ++ " | " ++ file ++ " (" ++ toString line ++ ")" ++ "\n"

/-- The `while ((errorCode = glGetError()) != GL_NO_ERROR)` loop, by recursion
on the pending errors `glGetError` pops: an empty queue answers `GL_NO_ERROR`
and ends the loop; a non-zero head is printed and the loop goes on. -/
def glCheckError_loop (file : String) (line : Int) : List Nat → World → Nat × World
  | [], w => (GL_NO_ERROR, { w with errq := [], calls := w.calls ++ [Call.glGetError] })
  | errorCode :: pending, w =>
    if errorCode != GL_NO_ERROR then
      glCheckError_loop file line pending
        { w with
          errq := pending
          calls := w.calls ++ [Call.glGetError]
          out := w.out ++ [errorLine file line errorCode] }
    else
      (errorCode, { w with errq := pending, calls := w.calls ++ [Call.glGetError] })

/-- `GLenum glCheckError_(const char *file, int line)`. -/
def glCheckError_ (file : String) (line : Int) (w : World) : Nat × World :=
  glCheckError_loop file line w.errq w

/-- The macro `glCheckError()`, used as a statement at source line `line`. -/
def glCheckError (env : Env) (line : Int) (w : World) : World :=
  (glCheckError_ env.file line w).2

/-! ## `key_callback` (main.cpp 332-344) -/

/-- The element of `bool KEY_PRESSED[1024]` that `KEY_PRESSED[key]` names, if any. -/
def keySlot (key : Int) : Option (Fin 1024) :=
  if h : 0 ≤ key ∧ key < 1024 then some ⟨key.toNat, by omega⟩ else none

/-- `glfwSetWindowShouldClose(window, value)`. -/
def glfwSetWindowShouldClose (value : Nat) (w : World) : World :=
  { glfw (Call.glfwSetWindowShouldClose value) w with shouldClose := value != 0 }

/-- `void key_callback(GLFWwindow*, int key, int scancode, int action, int mode)`;
`none` when the store to `KEY_PRESSED[key]` is out of bounds. -/
def key_callback (key scancode action mode : Int) (w : World) : Option World :=
  let w :=
    if key = GLFW_KEY_ESCAPE ∧ action = GLFW_PRESS then
      glfwSetWindowShouldClose GL_TRUE w
    else w
  if action = GLFW_PRESS then
    (keySlot key).map fun i => { w with KEY_PRESSED := Function.update w.KEY_PRESSED i true }
  else if action = GLFW_RELEASE then
    (keySlot key).map fun i => { w with KEY_PRESSED := Function.update w.KEY_PRESSED i false }
  else
    some w

/-! ## Shaders (main.cpp 72-154) -/

inductive ShaderType where
  | VERTEX
  | FRAGMENT
  deriving DecidableEq

/-- `struct Shader`.  `create_shader` never assigns `shader_type`; `none` is
that unassigned field. -/
structure Shader where
  shader_type : Option ShaderType
  id : Nat

/-- `struct ShaderProgram`; `make_shared<ShaderProgram>()` zero-initialises it
and only `id` is assigned afterwards. -/
structure ShaderProgram where
  vertex : Shader
  fragment : Shader
  id : Nat

/-- `Shader create_shader(ShaderType type, const char *src)`. -/
def create_shader (env : Env) (type_ : ShaderType) (src : String) (w : World) :
    Shader × World :=
  let r : Nat × World :=
    match type_ with
    | ShaderType.VERTEX =>
      let w := gl env (Call.glCreateShader GL_VERTEX_SHADER) w
      (env.createShader GL_VERTEX_SHADER, glCheckError env 87 w)
    | ShaderType.FRAGMENT =>
      let w := gl env (Call.glCreateShader GL_FRAGMENT_SHADER) w
      (env.createShader GL_FRAGMENT_SHADER, glCheckError env 91 w)
  let shader : Shader := { shader_type := none, id := r.1 }
  let w := r.2
  let w := gl env (Call.glShaderSource shader.id 1 src) w
  let w := glCheckError env 99 w
  let w := gl env (Call.glCompileShader shader.id) w
  let w := glCheckError env 101 w
  let w := gl env (Call.glGetShaderiv shader.id GL_COMPILE_STATUS) w
  let w := { w with success := env.compileStatus shader.id }
  let w := glCheckError env 104 w
  let w :=
    if w.success = 0 then
      let w := gl env (Call.glGetShaderInfoLog shader.id 512) w
      let w := { w with infoLog := env.shaderInfoLog shader.id }
      let w := glCheckError env 108 w
      { w with err := w.err ++ ["ERROR::SHADER::VERTEX::COMPILATION_FAILED\n" ++ w.infoLog ++ "\n"] }
    else w
  (shader, w)

/-- `create_shader_program(const char *vertex_src, const char *fragment_src)`. -/
def create_shader_program (env : Env) (vertex_src fragment_src : String) (w : World) :
    ShaderProgram × World :=
  let program : ShaderProgram :=
    { vertex := { shader_type := some ShaderType.VERTEX, id := 0 }
      fragment := { shader_type := some ShaderType.VERTEX, id := 0 }
      id := 0 }
  let vs := create_shader env ShaderType.VERTEX vertex_src w
  let vertex_shader := vs.1
  let fs := create_shader env ShaderType.FRAGMENT fragment_src vs.2
  let fragment_shader := fs.1
  let w := fs.2
  let w := gl env Call.glCreateProgram w
  let program := { program with id := env.createProgram }
  let w := glCheckError env 127 w
  let w := gl env (Call.glAttachShader program.id vertex_shader.id) w
  let w := glCheckError env 129 w
  let w := gl env (Call.glAttachShader program.id fragment_shader.id) w
  let w := glCheckError env 131 w
  let w := gl env (Call.glLinkProgram program.id) w
  let w := glCheckError env 133 w
  let w := gl env (Call.glGetProgramiv program.id GL_LINK_STATUS) w
  let w := { w with success := env.linkStatus program.id }
  let w := glCheckError env 136 w
  let w :=
    if w.success = 0 then
      let w := gl env (Call.glGetProgramInfoLog program.id 512) w
      let w := { w with infoLog := env.programInfoLog program.id }
      let w := glCheckError env 139 w
      { w with err := w.err ++ ["ERROR::SHADER::PROGRAM::LINK_FAILED\n" ++ w.infoLog ++ "\n"] }
    else w
  let w := gl env (Call.glDeleteShader vertex_shader.id) w
  let w := glCheckError env 144 w
  let w := gl env (Call.glDeleteShader fragment_shader.id) w
  let w := glCheckError env 146 w
  (program, w)

/-- `void use_shader(const shared_ptr<ShaderProgram> &program)`. -/
def use_shader (env : Env) (program : ShaderProgram) (w : World) : World :=
  let w := gl env (Call.glUseProgram program.id) w
  glCheckError env 153 w

/-! ## Meshes (main.cpp 156-233) -/

/-- `struct Mesh`. -/
structure Mesh where
  VBO : Nat
  VAO : Nat
  EBO : Nat
  draw_mode : Nat
  n_indices : Int
  shader : ShaderProgram

/-- Conversion of an integer value to `size_t` (64 bits, unsigned). -/
def to_size_t (x : Int) : Int := x % 2 ^ 64

/-- Conversion of an integer value to `int` (32 bits, two's complement). -/
def to_int (x : Int) : Int := (x + 2 ^ 31) % 2 ^ 32 - 2 ^ 31

/-- Conversion of an integer value to `GLsizeiptr` (64 bits, two's complement). -/
def to_GLsizeiptr (x : Int) : Int := (x + 2 ^ 63) % 2 ^ 64 - 2 ^ 63

def sizeof_GLfloat : Int := 4
def sizeof_GLuint : Int := 4

/-- `Mesh create_mesh(int n_vertices, GLfloat *vertices, int n_indices,
GLuint *indices, const shared_ptr<ShaderProgram> &shader)`. -/
def create_mesh (env : Env) (n_vertices : Int) (vertices : List ℚ) (n_indices : Int)
    (indices : List Nat) (shader : ShaderProgram) (w : World) : Mesh × World :=
  let vertices_size : Int :=
    to_int (to_size_t (to_size_t (to_size_t n_vertices * sizeof_GLfloat) * 3))
  let w := gl env (Call.glGenVertexArrays 1) w
  let VAO := env.genVertexArray
  let w := glCheckError env 174 w
  let w := gl env (Call.glGenBuffers 1) w
  let VBO := env.genBufferFirst
  let w := glCheckError env 176 w
  let w := gl env (Call.glGenBuffers 1) w
  let EBO := env.genBufferSecond
  let w := glCheckError env 178 w
  let w := gl env (Call.glBindVertexArray VAO) w
  let w := glCheckError env 181 w
  let w := gl env (Call.glBindBuffer GL_ARRAY_BUFFER VBO) w
  let w := glCheckError env 184 w
  let w := gl env (Call.glBufferData GL_ARRAY_BUFFER (to_GLsizeiptr vertices_size)
    (Blob.floats vertices) GL_STATIC_DRAW) w
  let w := glCheckError env 187 w
  let w := gl env (Call.glBindBuffer GL_ELEMENT_ARRAY_BUFFER EBO) w
  let w := glCheckError env 190 w
  let w := gl env (Call.glBufferData GL_ELEMENT_ARRAY_BUFFER
    (to_GLsizeiptr (to_size_t (to_size_t n_indices * sizeof_GLuint)))
    (Blob.uints indices) GL_STATIC_DRAW) w
  let w := glCheckError env 193 w
  let w := gl env (Call.glVertexAttribPointer 0 3 GL_FLOAT GL_FALSE
    (to_int (to_size_t (3 * sizeof_GLfloat))) 0) w
  let w := glCheckError env 196 w
  let w := gl env (Call.glEnableVertexAttribArray 0) w
  let w := glCheckError env 198 w
  let w := gl env (Call.glBindVertexArray 0) w
  let w := glCheckError env 201 w
  ({ VBO := VBO, VAO := VAO, EBO := EBO, draw_mode := GL_FILL,
     n_indices := n_indices, shader := shader }, w)

/-- `void draw_mesh(const Mesh &mesh)`. -/
def draw_mesh (env : Env) (mesh : Mesh) (w : World) : World :=
  let w := gl env (Call.glBindVertexArray mesh.VAO) w
  let w := glCheckError env 221 w
  let w := gl env (Call.glPolygonMode GL_FRONT_AND_BACK mesh.draw_mode) w
  let w := glCheckError env 223 w
  let w := gl env (Call.glDrawElements GL_TRIANGLES mesh.n_indices GL_UNSIGNED_INT 0) w
  let w := glCheckError env 225 w
  let w := gl env (Call.glBindVertexArray 0) w
  glCheckError env 227 w

/-- `void clear_screen()`. -/
def clear_screen (env : Env) (w : World) : World :=
  let w := gl env (Call.glClearColor (2 / 10) (3 / 10) (3 / 10) 1) w
  let w := glCheckError env 348 w
  let w := gl env (Call.glClear GL_COLOR_BUFFER_BIT) w
  glCheckError env 350 w

/-! ## `main` (main.cpp 235-330) -/

def vertices : List ℚ :=
  [-(1 / 2), -(1 / 2), 0,
   0, 1 / 2, 0,
   1 / 2, -(1 / 2), 0]

def indices : List Nat :=
  [0, 1, 2]

def vertex_shader_src : String :=
  "#version 330 core\n" ++
  "layout (location = 0) in vec3 position;\n" ++
  "void main()\n" ++
  "\x7b\n" ++
  "gl_Position = vec4(position.x, position.y, position.z, 1.0);\n" ++
  "\x7d\n"

def fragment_shader_src : String :=
  "#version 330 core\n" ++
  "out vec4 color;\n" ++
  "uniform vec4 ourColor;\n" ++
  "void main()\n" ++
  "\x7b\n" ++
  "color = ourColor;\n" ++
  "\x7d\n"

/-- `fmax` on exact values. -/
def fmax (x y : ℚ) : ℚ := if x < y then y else x

/-- `fmin` on exact values. -/
def fmin (x y : ℚ) : ℚ := if y < x then y else x

/-- One key event GLFW delivers to the key callback. -/
structure KeyEvent where
  key : Int
  scancode : Int
  action : Int
  mode : Int

/-- What one loop iteration receives: the key events delivered by
`glfwPollEvents`, the value of `glfwGetTime()` and the answer of
`glGetUniformLocation`. -/
structure Frame where
  events : List KeyEvent
  time : ℚ
  location : Int

/-- The locals `greenValue`, `redValue`, `blueValue` of `main`. -/
structure Locals where
  greenValue : ℚ
  redValue : ℚ
  blueValue : ℚ

/-- How a run ends: `main` returned, the frames supplied ran out with the loop
still going, or a store went out of bounds. -/
inductive Outcome where
  | returned (code : Int)
  | running
  | undefined
  deriving DecidableEq

/-- How one loop iteration ends. -/
inductive Flow where
  | next
  | exit (code : Int)
  | undefined
  deriving DecidableEq

/-- The callbacks run by `glfwPollEvents`, in delivery order; the flag is
`false` when one of them stores out of bounds (the state is the one before it). -/
def dispatch : List KeyEvent → World → World × Bool
  | [], w => (w, true)
  | e :: es, w =>
    match key_callback e.key e.scancode e.action e.mode w with
    | some w => dispatch es w
    | none => (w, false)

/-- `glfwPollEvents()` with `key_callback` installed. -/
def glfwPollEvents (events : List KeyEvent) (w : World) : World × Bool :=
  dispatch events (glfw Call.glfwPollEvents w)

/-- The loop body from `glfwGetTime()` on (main.cpp 288-325). -/
def main_loop_frame (env : Env) (shader : ShaderProgram) (triangle : Mesh) (f : Frame)
    (l : Locals) (w : World) : Flow × Locals × World :=
  let w := glfw Call.glfwGetTime w
  let currentFrame := f.time
  let w := { w with deltaTime := currentFrame - w.lastFrame }
  let w := { w with lastFrame := currentFrame }
  let greenValue :=
    if w.KEY_PRESSED ⟨GLFW_KEY_W.toNat, by decide⟩ then l.greenValue + w.deltaTime
    else if w.KEY_PRESSED ⟨GLFW_KEY_S.toNat, by decide⟩ then l.greenValue - w.deltaTime
    else l.greenValue
  let greenValue := fmin (fmax greenValue 0) 1
  let redValue :=
    if w.KEY_PRESSED ⟨GLFW_KEY_D.toNat, by decide⟩ then l.redValue + w.deltaTime
    else if w.KEY_PRESSED ⟨GLFW_KEY_A.toNat, by decide⟩ then l.redValue - w.deltaTime
    else l.redValue
  let redValue := fmin (fmax redValue 0) 1
  let blueValue :=
    if w.KEY_PRESSED ⟨GLFW_KEY_E.toNat, by decide⟩ then l.blueValue + w.deltaTime
    else if w.KEY_PRESSED ⟨GLFW_KEY_Q.toNat, by decide⟩ then l.blueValue - w.deltaTime
    else l.blueValue
  let blueValue := fmin (fmax blueValue 0) 1
  let l : Locals := { greenValue := greenValue, redValue := redValue, blueValue := blueValue }
  let w := clear_screen env w
  let w := gl env (Call.glGetUniformLocation shader.id "ourColor") w
  let vertexColorLocation := f.location
  if vertexColorLocation = -1 then
    (Flow.exit 1, l, { w with err := w.err ++ ["Cannot find uniform location\n"] })
  else
    let w := use_shader env shader w
    let w := gl env (Call.glUniform4f vertexColorLocation redValue greenValue blueValue 1) w
    let w := draw_mesh env triangle w
    let w := glfw Call.glfwSwapBuffers w
    (Flow.next, l, w)

/-- One iteration of the `while` loop of `main` (main.cpp 286-325). -/
def main_loop_body (env : Env) (shader : ShaderProgram) (triangle : Mesh) (f : Frame)
    (l : Locals) (w : World) : Flow × Locals × World :=
  let p := glfwPollEvents f.events w
  if p.2 then main_loop_frame env shader triangle f l p.1
  else (Flow.undefined, l, p.1)

/-- `while (!glfwWindowShouldClose(window)) { ... } glfwTerminate(); return 0;`
run on the frames supplied. -/
def main_loop (env : Env) (shader : ShaderProgram) (triangle : Mesh) :
    List Frame → Locals → World → Outcome × World
  | [], _, w =>
    let w := glfw Call.glfwWindowShouldClose w
    if w.shouldClose then (Outcome.returned 0, glfw Call.glfwTerminate w)
    else (Outcome.running, w)
  | f :: fs, l, w =>
    let w := glfw Call.glfwWindowShouldClose w
    if w.shouldClose then (Outcome.returned 0, glfw Call.glfwTerminate w)
    else
      let r := main_loop_body env shader triangle f l w
      match r.1 with
      | Flow.next => main_loop env shader triangle fs r.2.1 r.2.2
      | Flow.exit code => (Outcome.returned code, r.2.2)
      | Flow.undefined => (Outcome.undefined, r.2.2)

/-- `int main()`, run on the frames supplied: `env.windowOk` says whether
`glfwCreateWindow` returned a window, `env.glewOk` whether `glewInit` returned
`GLEW_OK`. -/
def main (env : Env) (frames : List Frame) : Outcome × World :=
  let w := World.start
  let w := glfw Call.glfwInit w
  let w := glfw (Call.glfwWindowHint GLFW_CONTEXT_VERSION_MAJOR 3) w
  let w := glfw (Call.glfwWindowHint GLFW_CONTEXT_VERSION_MINOR 3) w
  let w := glfw (Call.glfwWindowHint GLFW_OPENGL_PROFILE GLFW_OPENGL_CORE_PROFILE) w
  let w := glfw (Call.glfwWindowHint GLFW_OPENGL_FORWARD_COMPAT 1) w  -- GL_TRUE
  let w := glfw (Call.glfwWindowHint GLFW_RESIZABLE 0) w  -- GL_FALSE
  let w := glfw (Call.glfwCreateWindow 800 600 "LearnOpenGL") w
  if env.windowOk = false then
    let w := { w with err := w.err ++ ["Failed to create GLFW window\n"] }
    (Outcome.returned (-1), glfw Call.glfwTerminate w)
  else
    let w := glfw Call.glfwMakeContextCurrent w
    -- `glewExperimental = GL_TRUE` sets a flag of GLEW and is not a call
    let w := glfw Call.glewInit w
    if env.glewOk = false then
      (Outcome.returned (-1), { w with err := w.err ++ ["Failed to initialize GLEW\n"] })
    else
      let w := glfw Call.glfwGetFramebufferSize w
      let w := gl env (Call.glViewport 0 0 env.fbWidth env.fbHeight) w
      let w := glfw Call.glfwSetKeyCallback w
      let sp := create_shader_program env vertex_shader_src fragment_shader_src w
      let shader := sp.1
      let tm := create_mesh env 3 vertices 3 indices shader sp.2
      let triangle := tm.1
      main_loop env shader triangle frames
        { greenValue := 0, redValue := 0, blueValue := 0 } tm.2

/-! ## Reading a trace -/

/-- Calls that only ask the libraries for a value: the error polls, the status
and info-log queries, the uniform lookup, the clock, the close-flag test and
the framebuffer size. -/
def Call.isQuery : Call → Bool
  | Call.glGetError => true
  | Call.glGetShaderiv _ _ => true
  | Call.glGetShaderInfoLog _ _ => true
  | Call.glGetProgramiv _ _ => true
  | Call.glGetProgramInfoLog _ _ => true
  | Call.glGetUniformLocation _ _ => true
  | Call.glfwGetTime => true
  | Call.glfwWindowShouldClose => true
  | Call.glfwGetFramebufferSize => true
  | _ => false

/-- The calls of a trace that are not queries, in order. -/
def commands (cs : List Call) : List Call :=
  cs.filter fun c => !c.isQuery

/-- The info-log queries. -/
def Call.isInfoLog : Call → Bool
  | Call.glGetShaderInfoLog _ _ => true
  | Call.glGetProgramInfoLog _ _ => true
  | _ => false

def Call.isUniform4f : Call → Bool
  | Call.glUniform4f _ _ _ _ _ => true
  | _ => false

def Call.isBufferData : Call → Bool
  | Call.glBufferData _ _ _ _ => true
  | _ => false

def Call.isDrawElements : Call → Bool
  | Call.glDrawElements _ _ _ _ => true
  | _ => false

/-- The vertex array bound after a trace: the argument of its last
`glBindVertexArray`, 0 when there is none. -/
def boundVertexArray (cs : List Call) : Nat :=
  cs.foldl (fun bound c =>
    match c with
    | Call.glBindVertexArray a => a
    | _ => bound) 0

/-- The trace without the `glGetError` polls. -/
def steps (cs : List Call) : List Call :=
  cs.filter fun c => c != Call.glGetError

/-- Whether every call of a trace other than a `glGetError` poll is directly
followed by a `glGetError` poll: each call has its error check. -/
def eachChecked : List Call → Bool
  | [] => true
  | [c] => decide (c = Call.glGetError)
  | c :: d :: rest =>
    (decide (c = Call.glGetError) || decide (d = Call.glGetError)) && eachChecked (d :: rest)

/-- The trace `cs` continues the trace `base` by calls that each have their
error check. -/
def CheckedFrom (base cs : List Call) : Prop :=
  ∃ t, cs = base ++ t ∧ eachChecked t = true

/-- The enum `create_shader` passes to `glCreateShader` for each shader type. -/
def shaderEnum : ShaderType → Nat
  | ShaderType.VERTEX => GL_VERTEX_SHADER
  | ShaderType.FRAGMENT => GL_FRAGMENT_SHADER

/-! ## Specification-side definitions and sample inputs -/

/-- The calls of `create_shader_program`, error polls apart. -/
def shaderProgramSteps (env : Env) (v f : String) : List Call :=
  [Call.glCreateShader GL_VERTEX_SHADER,
   Call.glShaderSource (env.createShader GL_VERTEX_SHADER) 1 v,
   Call.glCompileShader (env.createShader GL_VERTEX_SHADER),
   Call.glGetShaderiv (env.createShader GL_VERTEX_SHADER) GL_COMPILE_STATUS] ++
  (if env.compileStatus (env.createShader GL_VERTEX_SHADER) = 0 then
    [Call.glGetShaderInfoLog (env.createShader GL_VERTEX_SHADER) 512]
   else []) ++
  [Call.glCreateShader GL_FRAGMENT_SHADER,
   Call.glShaderSource (env.createShader GL_FRAGMENT_SHADER) 1 f,
   Call.glCompileShader (env.createShader GL_FRAGMENT_SHADER),
   Call.glGetShaderiv (env.createShader GL_FRAGMENT_SHADER) GL_COMPILE_STATUS] ++
  (if env.compileStatus (env.createShader GL_FRAGMENT_SHADER) = 0 then
    [Call.glGetShaderInfoLog (env.createShader GL_FRAGMENT_SHADER) 512]
   else []) ++
  [Call.glCreateProgram,
   Call.glAttachShader env.createProgram (env.createShader GL_VERTEX_SHADER),
   Call.glAttachShader env.createProgram (env.createShader GL_FRAGMENT_SHADER),
   Call.glLinkProgram env.createProgram,
   Call.glGetProgramiv env.createProgram GL_LINK_STATUS] ++
  (if env.linkStatus env.createProgram = 0 then
    [Call.glGetProgramInfoLog env.createProgram 512]
   else []) ++
  [Call.glDeleteShader (env.createShader GL_VERTEX_SHADER),
   Call.glDeleteShader (env.createShader GL_FRAGMENT_SHADER)]

/-- The calls of `create_mesh`, error polls apart. -/
def meshSteps (env : Env) (n_vertices : Int) (vs : List ℚ) (n_indices : Int)
    (is : List Nat) : List Call :=
  [Call.glGenVertexArrays 1,
   Call.glGenBuffers 1,
   Call.glGenBuffers 1,
   Call.glBindVertexArray env.genVertexArray,
   Call.glBindBuffer GL_ARRAY_BUFFER env.genBufferFirst,
   Call.glBufferData GL_ARRAY_BUFFER
     (to_GLsizeiptr (to_int (to_size_t (to_size_t (to_size_t n_vertices * sizeof_GLfloat) * 3))))
     (Blob.floats vs) GL_STATIC_DRAW,
   Call.glBindBuffer GL_ELEMENT_ARRAY_BUFFER env.genBufferSecond,
   Call.glBufferData GL_ELEMENT_ARRAY_BUFFER
     (to_GLsizeiptr (to_size_t (to_size_t n_indices * sizeof_GLuint)))
     (Blob.uints is) GL_STATIC_DRAW,
   Call.glVertexAttribPointer 0 3 GL_FLOAT GL_FALSE (to_int (to_size_t (3 * sizeof_GLfloat))) 0,
   Call.glEnableVertexAttribArray 0,
   Call.glBindVertexArray 0]

/-- Whether an event is a press of Escape. -/
def KeyEvent.isEscapePress (e : KeyEvent) : Bool :=
  decide (e.key = GLFW_KEY_ESCAPE ∧ e.action = GLFW_PRESS)

/-- The close requests the callbacks make for a run of events. -/
def closeRequests (es : List KeyEvent) : List Call :=
  (es.filter KeyEvent.isEscapePress).map fun _ => Call.glfwSetWindowShouldClose GL_TRUE

/-- An event whose callback stores inside `KEY_PRESSED`, or does not store. -/
def KeyEvent.inBounds (e : KeyEvent) : Prop :=
  (e.action = GLFW_PRESS ∨ e.action = GLFW_RELEASE) → 0 ≤ e.key ∧ e.key < 1024

/-- What holds of every call made inside the loop: a `glUniform4f` passes
colours in `[0, 1]` with alpha 1, and no buffer is filled. -/
def Call.colourOk : Call → Prop
  | Call.glUniform4f _ v0 v1 v2 v3 =>
    (0 ≤ v0 ∧ v0 ≤ 1) ∧ (0 ≤ v1 ∧ v1 ≤ 1) ∧ (0 ≤ v2 ∧ v2 ≤ 1) ∧ v3 = 1
  | Call.glBufferData _ _ _ _ => False
  | _ => True

/-- The clamp of the spec: `clamp01 x = min (max x 0) 1`. -/
def clamp01 (x : ℚ) : ℚ := min (max x 0) 1

/-- The names the spec gives the seven known error codes. -/
def knownErrors : List (Nat × String) :=
  [(0x0500, "INVALID_ENUM"), (0x0501, "INVALID_VALUE"), (0x0502, "INVALID_OPERATION"),
   (0x0503, "STACK_OVERFLOW"), (0x0504, "STACK_UNDERFLOW"), (0x0505, "OUT_OF_MEMORY"),
   (0x0506, "INVALID_FRAMEBUFFER_OPERATION")]

/-- The name printed for a code: its known name, empty for any other code. -/
def errorName (code : Nat) : String :=
  ((knownErrors.find? fun p => p.1 = code).map Prod.snd).getD ""

/-- The last event of a run that presses or releases key `k`, if any. -/
def lastPressOrRelease (es : List KeyEvent) (k : Int) : Option KeyEvent :=
  (es.filter fun e =>
    decide (e.key = k ∧ (e.action = GLFW_PRESS ∨ e.action = GLFW_RELEASE))).getLast?

/-- An environment in which everything succeeds and no call raises an error. -/
def Env.sample : Env where
  file := "src/main.cpp"
  windowOk := true
  glewOk := true
  fbWidth := 800
  fbHeight := 600
  createShader := fun kind => if kind = GL_VERTEX_SHADER then 1 else 2
  compileStatus := fun _ => 1
  shaderInfoLog := fun _ => ""
  createProgram := 3
  linkStatus := fun _ => 1
  programInfoLog := fun _ => ""
  genVertexArray := 1
  genBufferFirst := 1
  genBufferSecond := 2
  raises := fun _ _ => []

/-- A frame in which W and D go down and E goes down and up again, a quarter
of a second after the start. -/
def sampleFrame : Frame where
  events := [⟨GLFW_KEY_W, 25, GLFW_PRESS, 0⟩, ⟨GLFW_KEY_D, 40, GLFW_PRESS, 0⟩,
    ⟨GLFW_KEY_A, 38, GLFW_PRESS, 0⟩, ⟨GLFW_KEY_E, 26, GLFW_PRESS, 0⟩,
    ⟨GLFW_KEY_E, 26, GLFW_RELEASE, 0⟩]
  time := 1 / 4
  location := 0

/-- The calls of `main` before the loop when the window and GLEW come up,
error polls apart. -/
def setupSteps (env : Env) : List Call :=
  [Call.glfwInit,
   Call.glfwWindowHint GLFW_CONTEXT_VERSION_MAJOR 3,
   Call.glfwWindowHint GLFW_CONTEXT_VERSION_MINOR 3,
   Call.glfwWindowHint GLFW_OPENGL_PROFILE GLFW_OPENGL_CORE_PROFILE,
   Call.glfwWindowHint GLFW_OPENGL_FORWARD_COMPAT 1,
   Call.glfwWindowHint GLFW_RESIZABLE 0,
   Call.glfwCreateWindow 800 600 "LearnOpenGL",
   Call.glfwMakeContextCurrent,
   Call.glewInit,
   Call.glfwGetFramebufferSize,
   Call.glViewport 0 0 env.fbWidth env.fbHeight,
   Call.glfwSetKeyCallback] ++
  shaderProgramSteps env vertex_shader_src fragment_shader_src ++
  meshSteps env 3 vertices 3 indices

/-- The shader program `main` holds: what `create_shader_program` returns for
the two sources (the same in whatever state it is called). -/
def mainShader (env : Env) : ShaderProgram :=
  (create_shader_program env vertex_shader_src fragment_shader_src World.start).1

/-- The mesh `main` holds: what `create_mesh(3, vertices, 3, indices, shader)`
returns (the same in whatever state it is called). -/
def mainTriangle (env : Env) : Mesh :=
  (create_mesh env 3 vertices 3 indices (mainShader env) World.start).1

/-- An environment in which neither shader compiles and the program does not
link (everything else as in `Env.sample`). -/
def Env.broken : Env :=
  { Env.sample with compileStatus := fun _ => 0, linkStatus := fun _ => 0 }

/-- A frame in which Escape goes down and the uniform lookup succeeds. -/
def escapeFrame : Frame where
  events := [⟨GLFW_KEY_ESCAPE, 9, GLFW_PRESS, 0⟩]
  time := 1 / 4
  location := 0

/-- A frame in which Escape goes down and the uniform is not found. -/
def escapeFrameNoUniform : Frame where
  events := [⟨GLFW_KEY_ESCAPE, 9, GLFW_PRESS, 0⟩]
  time := 1 / 4
  location := -1

/-! ## Basic facts about the state-passing primitives -/

section Primitives

variable (env : Env) (c : Call) (w : World) (file : String) (line : Int)

@[simp] theorem glfw_calls : (glfw c w).calls = w.calls ++ [c] := rfl
@[simp] theorem glfw_KEY_PRESSED : (glfw c w).KEY_PRESSED = w.KEY_PRESSED := rfl
@[simp] theorem glfw_deltaTime : (glfw c w).deltaTime = w.deltaTime := rfl
@[simp] theorem glfw_lastFrame : (glfw c w).lastFrame = w.lastFrame := rfl
@[simp] theorem glfw_success : (glfw c w).success = w.success := rfl
@[simp] theorem glfw_infoLog : (glfw c w).infoLog = w.infoLog := rfl
@[simp] theorem glfw_shouldClose : (glfw c w).shouldClose = w.shouldClose := rfl
@[simp] theorem glfw_errq : (glfw c w).errq = w.errq := rfl
@[simp] theorem glfw_out : (glfw c w).out = w.out := rfl
@[simp] theorem glfw_err : (glfw c w).err = w.err := rfl

@[simp] theorem gl_calls : (gl env c w).calls = w.calls ++ [c] := rfl
@[simp] theorem gl_KEY_PRESSED : (gl env c w).KEY_PRESSED = w.KEY_PRESSED := rfl
@[simp] theorem gl_deltaTime : (gl env c w).deltaTime = w.deltaTime := rfl
@[simp] theorem gl_lastFrame : (gl env c w).lastFrame = w.lastFrame := rfl
@[simp] theorem gl_success : (gl env c w).success = w.success := rfl
@[simp] theorem gl_infoLog : (gl env c w).infoLog = w.infoLog := rfl
@[simp] theorem gl_shouldClose : (gl env c w).shouldClose = w.shouldClose := rfl
@[simp] theorem gl_out : (gl env c w).out = w.out := rfl
@[simp] theorem gl_err : (gl env c w).err = w.err := rfl

theorem glCheckError_loop_frame (q : List Nat) :
    ∀ w : World,
      (glCheckError_loop file line q w).2.KEY_PRESSED = w.KEY_PRESSED ∧
      (glCheckError_loop file line q w).2.deltaTime = w.deltaTime ∧
      (glCheckError_loop file line q w).2.lastFrame = w.lastFrame ∧
      (glCheckError_loop file line q w).2.success = w.success ∧
      (glCheckError_loop file line q w).2.infoLog = w.infoLog ∧
      (glCheckError_loop file line q w).2.shouldClose = w.shouldClose ∧
      (glCheckError_loop file line q w).2.err = w.err ∧
      ∃ n, (glCheckError_loop file line q w).2.calls
        = w.calls ++ List.replicate (n + 1) Call.glGetError := by
  induction q with
  | nil => intro w; exact ⟨rfl, rfl, rfl, rfl, rfl, rfl, rfl, 0, rfl⟩
  | cons e q ih =>
    intro w
    unfold glCheckError_loop
    split_ifs with h
    · obtain ⟨h1, h2, h3, h4, h5, h6, h7, n, h8⟩ := ih
        { w with
          errq := q
          calls := w.calls ++ [Call.glGetError]
          out := w.out ++ [errorLine file line e] }
      refine ⟨h1, h2, h3, h4, h5, h6, h7, n + 1, ?_⟩
      rw [h8]
      simp [List.replicate_succ]
    · exact ⟨rfl, rfl, rfl, rfl, rfl, rfl, rfl, 0, rfl⟩

@[simp] theorem glCheckError_KEY_PRESSED :
    (glCheckError env line w).KEY_PRESSED = w.KEY_PRESSED :=
  (glCheckError_loop_frame env.file line w.errq w).1

@[simp] theorem glCheckError_deltaTime : (glCheckError env line w).deltaTime = w.deltaTime :=
  (glCheckError_loop_frame env.file line w.errq w).2.1

@[simp] theorem glCheckError_lastFrame : (glCheckError env line w).lastFrame = w.lastFrame :=
  (glCheckError_loop_frame env.file line w.errq w).2.2.1

@[simp] theorem glCheckError_success : (glCheckError env line w).success = w.success :=
  (glCheckError_loop_frame env.file line w.errq w).2.2.2.1

@[simp] theorem glCheckError_infoLog : (glCheckError env line w).infoLog = w.infoLog :=
  (glCheckError_loop_frame env.file line w.errq w).2.2.2.2.1

@[simp] theorem glCheckError_shouldClose :
    (glCheckError env line w).shouldClose = w.shouldClose :=
  (glCheckError_loop_frame env.file line w.errq w).2.2.2.2.2.1

@[simp] theorem glCheckError_err : (glCheckError env line w).err = w.err :=
  (glCheckError_loop_frame env.file line w.errq w).2.2.2.2.2.2.1

theorem glCheckError_calls :
    ∃ n, (glCheckError env line w).calls = w.calls ++ List.replicate (n + 1) Call.glGetError :=
  (glCheckError_loop_frame env.file line w.errq w).2.2.2.2.2.2.2

/-- An error check adds only `glGetError` polls to the trace. -/
@[simp] theorem glCheckError_calls_filter (p : Call → Bool) (hp : p Call.glGetError = false) :
    (glCheckError env line w).calls.filter p = w.calls.filter p := by
  obtain ⟨n, h⟩ := glCheckError_calls env w line
  rw [h, List.filter_append]
  have : (List.replicate (n + 1) Call.glGetError).filter p = [] := by
    simp [List.filter_eq_nil_iff, hp]
  rw [this, List.append_nil]

@[simp] theorem glCheckError_commands :
    commands (glCheckError env line w).calls = commands w.calls :=
  glCheckError_calls_filter env w line _ rfl

theorem mem_glCheckError_calls (d : Call) :
    d ∈ (glCheckError env line w).calls ↔ d ∈ w.calls ∨ d = Call.glGetError := by
  obtain ⟨n, h⟩ := glCheckError_calls env w line
  rw [h]
  simp [List.replicate_succ]
  constructor
  · rintro (h | h | h)
    · exact Or.inl h
    · exact Or.inr h
    · exact Or.inr h.2
  · rintro (h | h)
    · exact Or.inl h
    · exact Or.inr (Or.inl h)

@[simp] theorem commands_append (xs ys : List Call) :
    commands (xs ++ ys) = commands xs ++ commands ys := by
  simp [commands]

@[simp] theorem commands_nil : commands [] = [] := rfl

end Primitives

/-! ## The calls each function makes -/

section Steps

variable (env : Env) (w : World) (line : Int)

@[simp] theorem steps_nil : steps [] = [] := rfl

@[simp] theorem steps_append (xs ys : List Call) : steps (xs ++ ys) = steps xs ++ steps ys := by
  simp [steps]

@[simp] theorem steps_cons (c : Call) (cs : List Call) (h : c ≠ Call.glGetError) :
    steps (c :: cs) = c :: steps cs := by
  simp [steps, h]

@[simp] theorem steps_glCheckError : steps (glCheckError env line w).calls = steps w.calls :=
  glCheckError_calls_filter env w line _ (by simp)

/-- A predicate that rejects the error polls sees a trace through `steps`. -/
theorem filter_eq_filter_steps (p : Call → Bool) (hp : p Call.glGetError = false)
    (cs : List Call) : cs.filter p = (steps cs).filter p := by
  induction cs with
  | nil => rfl
  | cons c cs ih =>
    by_cases hc : c = Call.glGetError
    · subst hc
      simp [steps, hp] at ih ⊢
      exact ih
    · simp [hc, List.filter_cons, ih]

theorem commands_eq_steps (cs : List Call) : commands cs = commands (steps cs) :=
  filter_eq_filter_steps _ rfl cs

theorem create_shader_id (t : ShaderType) (src : String) :
    (create_shader env t src w).1.id = env.createShader (shaderEnum t) := by
  cases t <;> rfl

theorem create_shader_steps (t : ShaderType) (src : String) :
    steps (create_shader env t src w).2.calls =
      steps w.calls ++
        [Call.glCreateShader (shaderEnum t),
         Call.glShaderSource (env.createShader (shaderEnum t)) 1 src,
         Call.glCompileShader (env.createShader (shaderEnum t)),
         Call.glGetShaderiv (env.createShader (shaderEnum t)) GL_COMPILE_STATUS] ++
        (if env.compileStatus (env.createShader (shaderEnum t)) = 0 then
          [Call.glGetShaderInfoLog (env.createShader (shaderEnum t)) 512]
         else []) := by
  cases t <;> simp [create_shader, shaderEnum] <;> split_ifs <;> simp

theorem create_shader_err (t : ShaderType) (src : String) :
    (create_shader env t src w).2.err =
      w.err ++
        (if env.compileStatus (env.createShader (shaderEnum t)) = 0 then
          ["ERROR::SHADER::VERTEX::COMPILATION_FAILED\n" ++
            env.shaderInfoLog (env.createShader (shaderEnum t)) ++ "\n"]
         else []) := by
  cases t <;> simp [create_shader, shaderEnum] <;> split_ifs <;> simp

theorem create_shader_shouldClose (t : ShaderType) (src : String) :
    (create_shader env t src w).2.shouldClose = w.shouldClose := by
  cases t <;> simp [create_shader] <;> split_ifs <;> simp

theorem create_shader_program_id (v f : String) :
    (create_shader_program env v f w).1.id = env.createProgram := rfl

theorem create_shader_program_steps (v f : String) :
    steps (create_shader_program env v f w).2.calls =
      steps w.calls ++ shaderProgramSteps env v f := by
  by_cases h1 : env.compileStatus (env.createShader GL_VERTEX_SHADER) = 0 <;>
  by_cases h2 : env.compileStatus (env.createShader GL_FRAGMENT_SHADER) = 0 <;>
  by_cases h3 : env.linkStatus env.createProgram = 0 <;>
  simp [create_shader_program, create_shader_steps, create_shader_id, shaderEnum,
    shaderProgramSteps, h1, h2, h3]

theorem create_shader_program_err (v f : String) :
    (create_shader_program env v f w).2.err =
      w.err ++
        (if env.compileStatus (env.createShader GL_VERTEX_SHADER) = 0 then
          ["ERROR::SHADER::VERTEX::COMPILATION_FAILED\n" ++
            env.shaderInfoLog (env.createShader GL_VERTEX_SHADER) ++ "\n"]
         else []) ++
        (if env.compileStatus (env.createShader GL_FRAGMENT_SHADER) = 0 then
          ["ERROR::SHADER::VERTEX::COMPILATION_FAILED\n" ++
            env.shaderInfoLog (env.createShader GL_FRAGMENT_SHADER) ++ "\n"]
         else []) ++
        (if env.linkStatus env.createProgram = 0 then
          ["ERROR::SHADER::PROGRAM::LINK_FAILED\n" ++
            env.programInfoLog env.createProgram ++ "\n"]
         else []) := by
  by_cases h1 : env.compileStatus (env.createShader GL_VERTEX_SHADER) = 0 <;>
  by_cases h2 : env.compileStatus (env.createShader GL_FRAGMENT_SHADER) = 0 <;>
  by_cases h3 : env.linkStatus env.createProgram = 0 <;>
  simp [create_shader_program, create_shader_err, create_shader_id, shaderEnum, h1, h2, h3]

theorem create_shader_program_shouldClose (v f : String) :
    (create_shader_program env v f w).2.shouldClose = w.shouldClose := by
  by_cases h3 : env.linkStatus env.createProgram = 0 <;>
  simp [create_shader_program, create_shader_shouldClose, h3]

theorem use_shader_steps (program : ShaderProgram) :
    steps (use_shader env program w).calls = steps w.calls ++ [Call.glUseProgram program.id] := by
  simp [use_shader]

theorem create_mesh_steps (n_vertices : Int) (vs : List ℚ) (n_indices : Int) (is : List Nat)
    (shader : ShaderProgram) :
    steps (create_mesh env n_vertices vs n_indices is shader w).2.calls =
      steps w.calls ++ meshSteps env n_vertices vs n_indices is := by
  simp [create_mesh, meshSteps]

theorem create_mesh_shouldClose (n_vertices : Int) (vs : List ℚ) (n_indices : Int)
    (is : List Nat) (shader : ShaderProgram) :
    (create_mesh env n_vertices vs n_indices is shader w).2.shouldClose = w.shouldClose := by
  simp [create_mesh]

theorem draw_mesh_steps (mesh : Mesh) :
    steps (draw_mesh env mesh w).calls =
      steps w.calls ++
        [Call.glBindVertexArray mesh.VAO,
         Call.glPolygonMode GL_FRONT_AND_BACK mesh.draw_mode,
         Call.glDrawElements GL_TRIANGLES mesh.n_indices GL_UNSIGNED_INT 0,
         Call.glBindVertexArray 0] := by
  simp [draw_mesh]

theorem clear_screen_steps :
    steps (clear_screen env w).calls =
      steps w.calls ++
        [Call.glClearColor (2 / 10) (3 / 10) (3 / 10) 1, Call.glClear GL_COLOR_BUFFER_BIT] := by
  simp [clear_screen]

end Steps

/-! ## Key events -/

theorem keySlot_of_bounds (k : Int) (h : 0 ≤ k ∧ k < 1024) :
    keySlot k = some ⟨k.toNat, by omega⟩ := by
  simp [keySlot, h]

theorem keySlot_eq_none (k : Int) (h : ¬(0 ≤ k ∧ k < 1024)) : keySlot k = none := by
  simp only [keySlot, h, dif_neg, not_false_eq_true]

theorem closeRequests_cons (e : KeyEvent) (es : List KeyEvent) :
    closeRequests (e :: es) = closeRequests [e] ++ closeRequests es := by
  unfold closeRequests
  rw [← List.map_append, ← List.filter_append]
  rfl

theorem key_callback_frame (e : KeyEvent) (w w' : World)
    (h : key_callback e.key e.scancode e.action e.mode w = some w') :
    w'.calls = w.calls ++ closeRequests [e] ∧
    w'.shouldClose = (w.shouldClose || e.isEscapePress) ∧
    w'.deltaTime = w.deltaTime ∧ w'.lastFrame = w.lastFrame ∧
    w'.err = w.err ∧ w'.out = w.out ∧ w'.errq = w.errq ∧
    w'.success = w.success ∧ w'.infoLog = w.infoLog := by
  unfold key_callback at h
  by_cases hesc : e.key = GLFW_KEY_ESCAPE ∧ e.action = GLFW_PRESS
  · have hk : keySlot e.key = some ⟨e.key.toNat, by rw [hesc.1]; decide⟩ :=
      keySlot_of_bounds _ (by rw [hesc.1]; decide)
    simp [hesc, hk, glfwSetWindowShouldClose] at h
    obtain ⟨a, _, rfl⟩ := h
    simp [closeRequests, KeyEvent.isEscapePress, hesc, GL_TRUE]
  · simp only [hesc, if_false] at h
    have hreq : closeRequests [e] = [] := by
      simp [closeRequests, KeyEvent.isEscapePress, hesc]
    have hb : e.isEscapePress = false := by simp [KeyEvent.isEscapePress, hesc]
    rw [hreq, hb]
    split_ifs at h
    · obtain ⟨i, _, hi⟩ := Option.map_eq_some'.mp h
      subst hi; simp
    · obtain ⟨i, _, hi⟩ := Option.map_eq_some'.mp h
      subst hi; simp
    · cases h; simp

theorem key_callback_isSome (e : KeyEvent) (w : World) (h : e.inBounds) :
    ∃ w', key_callback e.key e.scancode e.action e.mode w = some w' := by
  unfold key_callback
  by_cases hp : e.action = GLFW_PRESS
  · rw [if_pos hp, keySlot_of_bounds _ (h (Or.inl hp))]; exact ⟨_, rfl⟩
  · rw [if_neg hp]
    by_cases hr : e.action = GLFW_RELEASE
    · rw [if_pos hr, keySlot_of_bounds _ (h (Or.inr hr))]; exact ⟨_, rfl⟩
    · rw [if_neg hr]; exact ⟨_, rfl⟩

theorem dispatch_frame (es : List KeyEvent) :
    ∀ w : World, ∃ pre, pre <+: es ∧
      ((dispatch es w).2 = true → pre = es) ∧
      (dispatch es w).1.calls = w.calls ++ closeRequests pre ∧
      (dispatch es w).1.shouldClose = (w.shouldClose || pre.any KeyEvent.isEscapePress) ∧
      (dispatch es w).1.deltaTime = w.deltaTime ∧ (dispatch es w).1.lastFrame = w.lastFrame ∧
      (dispatch es w).1.err = w.err := by
  induction es with
  | nil => intro w; exact ⟨[], List.prefix_refl _, fun _ => rfl, by simp [dispatch, closeRequests], by simp [dispatch], rfl, rfl, rfl⟩
  | cons e es ih =>
    intro w
    unfold dispatch
    cases hk : key_callback e.key e.scancode e.action e.mode w with
    | none =>
      exact ⟨[], List.nil_prefix, by simp, by simp [closeRequests], by simp, rfl, rfl, rfl⟩
    | some w1 =>
      obtain ⟨c1, c2, c3, c4, c5, _, _, _, _⟩ := key_callback_frame e w w1 hk
      obtain ⟨pre, p1, p2, p3, p4, p5, p6, p7⟩ := ih w1
      refine ⟨e :: pre, ?_, ?_, ?_, ?_, ?_, ?_, ?_⟩
      · exact (List.prefix_cons_inj e).mpr p1
      · intro hb; rw [p2 hb]
      · rw [p3, c1, closeRequests_cons e pre, List.append_assoc]
      · simp only [p4, c2]; simp [Bool.or_assoc]
      · simp only [p5, c3]
      · simp only [p6, c4]
      · simp only [p7, c5]

theorem dispatch_inBounds (es : List KeyEvent) :
    ∀ w : World, (∀ e ∈ es, e.inBounds) → (dispatch es w).2 = true := by
  induction es with
  | nil => intro w _; rfl
  | cons e es ih =>
    intro w h
    obtain ⟨w1, hw1⟩ := key_callback_isSome e w (h e (List.mem_cons_self _ _))
    unfold dispatch
    rw [hw1]
    exact ih w1 fun x hx => h x (List.mem_cons_of_mem _ hx)

/-! ## One frame -/

theorem fmin_fmax_eq (x : ℚ) : fmin (fmax x 0) 1 = min (max x 0) 1 := by
  unfold fmin fmax
  by_cases h : x < 0
  · rw [if_pos h, max_eq_right h.le]
    norm_num
  · rw [if_neg h, max_eq_left (not_lt.mp h)]
    by_cases h1 : 1 < x
    · rw [if_pos h1, min_eq_right h1.le]
    · rw [if_neg h1, min_eq_left (not_lt.mp h1)]

theorem fmin_fmax_bounds (x : ℚ) : 0 ≤ fmin (fmax x 0) 1 ∧ fmin (fmax x 0) 1 ≤ 1 := by
  rw [fmin_fmax_eq]
  exact ⟨le_min (le_max_right _ _) zero_le_one, min_le_right _ _⟩

section Frames

variable (env : Env) (shader : ShaderProgram) (triangle : Mesh) (f : Frame) (l : Locals)
  (w : World)

theorem main_loop_frame_flow :
    (main_loop_frame env shader triangle f l w).1 =
      if f.location = -1 then Flow.exit 1 else Flow.next := by
  by_cases h : f.location = -1 <;> simp [main_loop_frame, h]

theorem main_loop_frame_shouldClose :
    (main_loop_frame env shader triangle f l w).2.2.shouldClose = w.shouldClose := by
  by_cases h : f.location = -1 <;>
  simp [main_loop_frame, h, clear_screen, use_shader, draw_mesh]

theorem main_loop_frame_steps :
    steps (main_loop_frame env shader triangle f l w).2.2.calls =
      steps w.calls ++
        [Call.glfwGetTime,
         Call.glClearColor (2 / 10) (3 / 10) (3 / 10) 1,
         Call.glClear GL_COLOR_BUFFER_BIT,
         Call.glGetUniformLocation shader.id "ourColor"] ++
        (if f.location = -1 then []
         else
          [Call.glUseProgram shader.id,
           Call.glUniform4f f.location
             (main_loop_frame env shader triangle f l w).2.1.redValue
             (main_loop_frame env shader triangle f l w).2.1.greenValue
             (main_loop_frame env shader triangle f l w).2.1.blueValue 1,
           Call.glBindVertexArray triangle.VAO,
           Call.glPolygonMode GL_FRONT_AND_BACK triangle.draw_mode,
           Call.glDrawElements GL_TRIANGLES triangle.n_indices GL_UNSIGNED_INT 0,
           Call.glBindVertexArray 0,
           Call.glfwSwapBuffers]) := by
  by_cases h : f.location = -1 <;>
  simp [main_loop_frame, h, clear_screen_steps, use_shader_steps, draw_mesh_steps]

end Frames

/-! ## The loop -/

section Loop

variable (env : Env) (shader : ShaderProgram) (triangle : Mesh)

theorem main_loop_frame_colours (f : Frame) (l : Locals) (w : World) :
    (0 ≤ (main_loop_frame env shader triangle f l w).2.1.redValue ∧
      (main_loop_frame env shader triangle f l w).2.1.redValue ≤ 1) ∧
    (0 ≤ (main_loop_frame env shader triangle f l w).2.1.greenValue ∧
      (main_loop_frame env shader triangle f l w).2.1.greenValue ≤ 1) ∧
    (0 ≤ (main_loop_frame env shader triangle f l w).2.1.blueValue ∧
      (main_loop_frame env shader triangle f l w).2.1.blueValue ≤ 1) := by
  by_cases h : f.location = -1 <;>
  simp only [main_loop_frame, h, if_true, if_false] <;>
  exact ⟨fmin_fmax_bounds _, fmin_fmax_bounds _, fmin_fmax_bounds _⟩

theorem steps_glfwPollEvents (es : List KeyEvent) (w : World) :
    ∃ pre, pre <+: es ∧ ((glfwPollEvents es w).2 = true → pre = es) ∧
      steps (glfwPollEvents es w).1.calls =
        steps w.calls ++ Call.glfwPollEvents :: closeRequests pre := by
  obtain ⟨pre, h1, h2, h3, _⟩ := dispatch_frame es (glfw Call.glfwPollEvents w)
  refine ⟨pre, h1, h2, ?_⟩
  unfold glfwPollEvents
  rw [h3]
  have : steps (closeRequests pre) = closeRequests pre := by
    simp [steps, closeRequests, List.filter_eq_self]
  simp [this]

/-- What one loop iteration adds to the trace, error polls apart. -/
theorem main_loop_body_steps (f : Frame) (l : Locals) (w : World) :
    ∃ d, steps (main_loop_body env shader triangle f l w).2.2.calls = steps w.calls ++ d ∧
      ∀ c ∈ d, c.colourOk := by
  obtain ⟨pre, -, -, hp⟩ := steps_glfwPollEvents f.events w
  have hreq : ∀ c ∈ closeRequests pre, c.colourOk := by
    intro c hc
    simp [closeRequests] at hc
    rw [hc.2]; trivial
  unfold main_loop_body
  by_cases hb : (glfwPollEvents f.events w).2 = true
  · simp only [hb, if_true]
    rw [main_loop_frame_steps, hp]
    refine ⟨_, by simp only [List.append_assoc]; rfl, ?_⟩
    intro c hc
    have hcol := main_loop_frame_colours env shader triangle f l (glfwPollEvents f.events w).1
    by_cases hloc : f.location = -1
    · simp [hloc] at hc
      rcases hc with rfl | hc | rfl | rfl | rfl | rfl
      · trivial
      · exact hreq c hc
      all_goals trivial
    · simp [hloc] at hc
      rcases hc with rfl | hc | rfl | rfl | rfl | rfl | rfl | rfl | rfl | rfl | rfl | rfl | rfl
      · trivial
      · exact hreq c hc
      · trivial
      · trivial
      · trivial
      · trivial
      · trivial
      · exact ⟨hcol.1, hcol.2.1, hcol.2.2, rfl⟩
      all_goals trivial
  · simp only [hb]
    refine ⟨_, hp, ?_⟩
    intro c hc
    simp at hc
    rcases hc with rfl | hc
    · trivial
    · exact hreq c hc

theorem main_loop_steps (fs : List Frame) :
    ∀ (l : Locals) (w : World),
      ∃ d, steps (main_loop env shader triangle fs l w).2.calls = steps w.calls ++ d ∧
        ∀ c ∈ d, c.colourOk := by
  induction fs with
  | nil =>
    intro l w
    unfold main_loop
    by_cases h : w.shouldClose = true
    · refine ⟨[Call.glfwWindowShouldClose, Call.glfwTerminate], by simp [h], ?_⟩
      intro c hc; simp at hc; rcases hc with rfl | rfl <;> trivial
    · refine ⟨[Call.glfwWindowShouldClose], by simp [h], ?_⟩
      intro c hc; simp at hc; subst hc; trivial
  | cons f fs ih =>
    intro l w
    unfold main_loop
    by_cases h : w.shouldClose = true
    · refine ⟨[Call.glfwWindowShouldClose, Call.glfwTerminate], by simp [h], ?_⟩
      intro c hc; simp at hc; rcases hc with rfl | rfl <;> trivial
    · obtain ⟨d, hd, hdc⟩ := main_loop_body_steps env shader triangle f l
        (glfw Call.glfwWindowShouldClose w)
      simp only [glfw_shouldClose, h]
      cases hflow : (main_loop_body env shader triangle f l
          (glfw Call.glfwWindowShouldClose w)).1 with
      | next =>
        obtain ⟨d2, hd2, hdc2⟩ := ih
          (main_loop_body env shader triangle f l (glfw Call.glfwWindowShouldClose w)).2.1
          (main_loop_body env shader triangle f l (glfw Call.glfwWindowShouldClose w)).2.2
        refine ⟨Call.glfwWindowShouldClose :: d ++ d2, ?_, ?_⟩
        · simp [hd2, hd]
        · intro c hc
          simp at hc
          rcases hc with rfl | hc | hc
          · trivial
          · exact hdc c hc
          · exact hdc2 c hc
      | exit code =>
        refine ⟨Call.glfwWindowShouldClose :: d, ?_, ?_⟩
        · simp [hd]
        · intro c hc
          simp at hc
          rcases hc with rfl | hc
          · trivial
          · exact hdc c hc
      | undefined =>
        refine ⟨Call.glfwWindowShouldClose :: d, ?_, ?_⟩
        · simp [hd]
        · intro c hc
          simp at hc
          rcases hc with rfl | hc
          · trivial
          · exact hdc c hc

end Loop

theorem errorString_eq_errorName (code : Nat) : errorString code = errorName code := by
  unfold errorString errorName knownErrors
  simp only [GL_INVALID_ENUM, GL_INVALID_VALUE, GL_INVALID_OPERATION, GL_STACK_OVERFLOW,
    GL_STACK_UNDERFLOW, GL_OUT_OF_MEMORY, GL_INVALID_FRAMEBUFFER_OPERATION]
  by_cases h0 : code = 0x0500
  · subst h0; rfl
  by_cases h1 : code = 0x0501
  · subst h1; rfl
  by_cases h2 : code = 0x0502
  · subst h2; rfl
  by_cases h3 : code = 0x0503
  · subst h3; rfl
  by_cases h4 : code = 0x0504
  · subst h4; rfl
  by_cases h5 : code = 0x0505
  · subst h5; rfl
  by_cases h6 : code = 0x0506
  · subst h6; rfl
  have e0 : ¬ (0x0500 = code) := fun h => h0 h.symm
  have e1 : ¬ (0x0501 = code) := fun h => h1 h.symm
  have e2 : ¬ (0x0502 = code) := fun h => h2 h.symm
  have e3 : ¬ (0x0503 = code) := fun h => h3 h.symm
  have e4 : ¬ (0x0504 = code) := fun h => h4 h.symm
  have e5 : ¬ (0x0505 = code) := fun h => h5 h.symm
  have e6 : ¬ (0x0506 = code) := fun h => h6 h.symm
  simp [h0, h1, h2, h3, h4, h5, h6, e0, e1, e2, e3, e4, e5, e6, List.find?]

theorem glCheckError_loop_drains (file : String) (line : Int) (q : List Nat) :
    ∀ w : World, (∀ e ∈ q, e ≠ GL_NO_ERROR) →
      glCheckError_loop file line q w =
        (GL_NO_ERROR,
          { w with
            errq := []
            out := w.out ++ q.map (errorLine file line)
            calls := w.calls ++ List.replicate (q.length + 1) Call.glGetError }) := by
  induction q with
  | nil => intro w _; simp [glCheckError_loop]
  | cons e q ih =>
    intro w h
    have he : (e != GL_NO_ERROR) = true := by
      simpa using h e (List.mem_cons_self _ _)
    unfold glCheckError_loop
    rw [if_pos he, ih _ fun x hx => h x (List.mem_cons_of_mem _ hx)]
    simp [List.replicate_succ]

theorem key_callback_table (k sc a m : Int) (w : World) (hk : 0 ≤ k ∧ k < 1024) :
    ∃ w', key_callback k sc a m w = some w' ∧
      ∀ j : Fin 1024, w'.KEY_PRESSED j =
        if ((j : Nat) : Int) = k ∧ a = GLFW_PRESS then true
        else if ((j : Nat) : Int) = k ∧ a = GLFW_RELEASE then false
        else w.KEY_PRESSED j := by
  have hj : ∀ j : Fin 1024, (j = (⟨k.toNat, by omega⟩ : Fin 1024)) ↔ ((j : Nat) : Int) = k := by
    intro j
    rw [Fin.ext_iff]
    constructor
    · intro h; simp only [h]; omega
    · intro h; simp only; omega
  have hw0 : (if k = GLFW_KEY_ESCAPE ∧ a = GLFW_PRESS then glfwSetWindowShouldClose GL_TRUE w
      else w).KEY_PRESSED = w.KEY_PRESSED := by
    split_ifs <;> rfl
  have hpr : GLFW_PRESS ≠ GLFW_RELEASE := by decide
  unfold key_callback
  rw [keySlot_of_bounds k hk]
  by_cases hp : a = GLFW_PRESS
  · refine ⟨_, by rw [if_pos hp]; rfl, ?_⟩
    intro j
    dsimp only
    rw [hw0]
    by_cases hjk : ((j : Nat) : Int) = k
    · have hrhs : (if ((j : Nat) : Int) = k ∧ a = GLFW_PRESS then true
          else if ((j : Nat) : Int) = k ∧ a = GLFW_RELEASE then false
          else w.KEY_PRESSED j) = true := if_pos ⟨hjk, hp⟩
      rw [hrhs, (hj j).mpr hjk, Function.update_same]
    · rw [Function.update_noteq (fun h => hjk ((hj j).mp h)), if_neg (fun h => hjk h.1),
        if_neg (fun h => hjk h.1)]
  · by_cases hr : a = GLFW_RELEASE
    · refine ⟨_, by rw [if_neg hp, if_pos hr]; rfl, ?_⟩
      intro j
      dsimp only
      rw [hw0]
      by_cases hjk : ((j : Nat) : Int) = k
      · have hrhs : (if ((j : Nat) : Int) = k ∧ a = GLFW_PRESS then true
            else if ((j : Nat) : Int) = k ∧ a = GLFW_RELEASE then false
            else w.KEY_PRESSED j) = false := by
          rw [if_neg (fun h => hp h.2), if_pos ⟨hjk, hr⟩]
        rw [hrhs, (hj j).mpr hjk, Function.update_same]
      · rw [Function.update_noteq (fun h => hjk ((hj j).mp h)), if_neg (fun h => hjk h.1),
          if_neg (fun h => hjk h.1)]
    · refine ⟨_, by rw [if_neg hp, if_neg hr], ?_⟩
      intro j
      rw [hw0, if_neg (fun h => hp h.2), if_neg (fun h => hr h.2)]

theorem getLast?_cons_eq {α : Type} (a : α) (l : List α) :
    (a :: l).getLast? = some (l.getLast?.getD a) := by
  cases l with
  | nil => rfl
  | cons b l =>
    rw [List.getLast?_cons_cons]
    cases h : (b :: l).getLast? with
    | none => simp at h
    | some x => rfl

theorem getLast?_filter_cons {α : Type} (p : α → Bool) (a : α) (l : List α) :
    ((a :: l).filter p).getLast? =
      match (l.filter p).getLast? with
      | some x => some x
      | none => if p a = true then some a else none := by
  rw [List.filter_cons]
  cases hp : p a
  · rw [if_neg (by simp)]
    generalize (l.filter p).getLast? = o
    cases o <;> simp
  · rw [if_pos rfl, getLast?_cons_eq]
    generalize (l.filter p).getLast? = o
    cases o <;> simp

theorem lastPressOrRelease_cons (e : KeyEvent) (es : List KeyEvent) (k : Int) :
    lastPressOrRelease (e :: es) k =
      match lastPressOrRelease es k with
      | some x => some x
      | none =>
        if e.key = k ∧ (e.action = GLFW_PRESS ∨ e.action = GLFW_RELEASE) then some e else none := by
  unfold lastPressOrRelease
  rw [getLast?_filter_cons]
  generalize (List.filter _ es).getLast? = o
  cases o
  · simp only [decide_eq_true_eq]
  · rfl

theorem dispatch_table (es : List KeyEvent) :
    ∀ w : World, (∀ e ∈ es, 0 ≤ e.key ∧ e.key < 1024) →
      ∃ w', dispatch es w = (w', true) ∧
        ∀ j : Fin 1024, w'.KEY_PRESSED j =
          match lastPressOrRelease es ((j : Nat) : Int) with
          | some e => decide (e.action = GLFW_PRESS)
          | none => w.KEY_PRESSED j := by
  induction es with
  | nil => intro w _; exact ⟨w, rfl, fun j => rfl⟩
  | cons e es ih =>
    intro w h
    obtain ⟨w1, hw1, ht1⟩ := key_callback_table e.key e.scancode e.action e.mode w
      (h e (List.mem_cons_self _ _))
    obtain ⟨w2, hw2, ht2⟩ := ih w1 fun x hx => h x (List.mem_cons_of_mem _ hx)
    refine ⟨w2, by unfold dispatch; rw [hw1]; exact hw2, ?_⟩
    intro j
    rw [ht2 j, lastPressOrRelease_cons, ht1 j]
    cases lastPressOrRelease es ((j : Nat) : Int) with
    | some x => rfl
    | none =>
      have hpr : GLFW_PRESS ≠ GLFW_RELEASE := by decide
      by_cases hjk : ((j : Nat) : Int) = e.key
      · by_cases hp : e.action = GLFW_PRESS
        · simp [hjk, hp]
        · by_cases hr : e.action = GLFW_RELEASE
          · simp [hjk, hp, hr, hpr.symm]
          · simp [hjk, hp, hr]
      · have hkj : ¬ e.key = ((j : Nat) : Int) := fun h => hjk h.symm
        simp [hjk, hkj]

theorem clamp01_of_mem (v : ℚ) (h0 : 0 ≤ v) (h1 : v ≤ 1) : clamp01 v = v := by
  unfold clamp01
  rw [max_eq_left h0, min_eq_left h1]

theorem glfwPollEvents_lastFrame (es : List KeyEvent) (w : World) :
    (glfwPollEvents es w).1.lastFrame = w.lastFrame := by
  obtain ⟨_, _, _, _, _, _, h, _⟩ := dispatch_frame es (glfw Call.glfwPollEvents w)
  exact h

theorem sampleFrame_poll : (glfwPollEvents sampleFrame.events World.start).2 = true := by
  decide

theorem emod_shift (x m k : Int) (h0 : 0 ≤ x + k * m) (h1 : x + k * m < m) :
    x % m = x + k * m := by
  rw [← Int.add_mul_emod_self (a := x) (b := k) (c := m)]
  exact Int.emod_eq_of_lt h0 h1

theorem to_size_t_of_nonneg (x : Int) (h0 : 0 ≤ x) (h1 : x < 2 ^ 64) : to_size_t x = x := by
  unfold to_size_t
  exact Int.emod_eq_of_lt h0 h1

theorem to_int_of_range (x : Int) (h0 : -2 ^ 31 ≤ x) (h1 : x < 2 ^ 31) : to_int x = x := by
  unfold to_int
  rw [Int.emod_eq_of_lt (by linarith) (by linarith)]
  ring

theorem to_GLsizeiptr_of_range (x : Int) (h0 : -2 ^ 63 ≤ x) (h1 : x < 2 ^ 63) :
    to_GLsizeiptr x = x := by
  unfold to_GLsizeiptr
  rw [Int.emod_eq_of_lt (by linarith) (by linarith)]
  ring

theorem vertices_size_eq (n : Int) (h : 0 ≤ 12 * n ∧ 12 * n < 2 ^ 31) :
    to_GLsizeiptr (to_int (to_size_t (to_size_t (to_size_t n * sizeof_GLfloat) * 3))) = 12 * n := by
  obtain ⟨h0, h1⟩ := h
  have hn : 0 ≤ n := by linarith
  unfold sizeof_GLfloat
  rw [to_size_t_of_nonneg n hn (by linarith),
    to_size_t_of_nonneg (n * 4) (by linarith) (by linarith),
    to_size_t_of_nonneg (n * 4 * 3) (by linarith) (by linarith),
    to_int_of_range (n * 4 * 3) (by linarith) (by linarith),
    to_GLsizeiptr_of_range (n * 4 * 3) (by linarith) (by linarith)]
  ring

theorem indices_size_eq (n : Int) (h : -2 ^ 31 ≤ n ∧ n < 2 ^ 31) :
    to_GLsizeiptr (to_size_t (to_size_t n * sizeof_GLuint)) = 4 * n := by
  obtain ⟨h0, h1⟩ := h
  unfold sizeof_GLuint
  by_cases hn : 0 ≤ n
  · rw [to_size_t_of_nonneg n hn (by linarith),
      to_size_t_of_nonneg (n * 4) (by linarith) (by linarith),
      to_GLsizeiptr_of_range (n * 4) (by linarith) (by linarith)]
    ring
  · have hneg : n < 0 := not_le.mp hn
    have e1 : to_size_t n = n + 1 * 2 ^ 64 := by
      unfold to_size_t
      exact emod_shift n (2 ^ 64) 1 (by linarith) (by linarith)
    have e2 : to_size_t ((n + 1 * 2 ^ 64) * 4) = (n + 1 * 2 ^ 64) * 4 + (-3) * 2 ^ 64 := by
      unfold to_size_t
      exact emod_shift _ (2 ^ 64) (-3) (by linarith) (by linarith)
    have e3 : to_GLsizeiptr ((n + 1 * 2 ^ 64) * 4 + (-3) * 2 ^ 64) = 4 * n := by
      unfold to_GLsizeiptr
      rw [emod_shift _ (2 ^ 64) (-1) (by linarith) (by linarith)]
      ring
    rw [e1, e2, e3]

theorem filter_steps_isBufferData (cs : List Call) :
    cs.filter Call.isBufferData = (steps cs).filter Call.isBufferData :=
  filter_eq_filter_steps _ rfl cs

section Main

variable (env : Env) (frames : List Frame)

theorem mem_steps (c : Call) (cs : List Call) :
    c ∈ steps cs ↔ c ∈ cs ∧ c ≠ Call.glGetError := by
  simp [steps]

theorem main_steps_of_ok (hw : env.windowOk = true) (hg : env.glewOk = true) :
    ∃ d, steps (main env frames).2.calls = setupSteps env ++ d ∧ ∀ c ∈ d, c.colourOk := by
  unfold main
  simp only [hw, hg, Bool.true_eq_false, if_false]
  obtain ⟨d, hd, hc⟩ := main_loop_steps env
    (create_shader_program env vertex_shader_src fragment_shader_src
      (glfw Call.glfwSetKeyCallback
        (gl env (Call.glViewport 0 0 env.fbWidth env.fbHeight)
          (glfw Call.glfwGetFramebufferSize
            (glfw Call.glewInit
              (glfw Call.glfwMakeContextCurrent
                (glfw (Call.glfwCreateWindow 800 600 "LearnOpenGL")
                  (glfw (Call.glfwWindowHint GLFW_RESIZABLE 0)
                    (glfw (Call.glfwWindowHint GLFW_OPENGL_FORWARD_COMPAT 1)
                      (glfw (Call.glfwWindowHint GLFW_OPENGL_PROFILE GLFW_OPENGL_CORE_PROFILE)
                        (glfw (Call.glfwWindowHint GLFW_CONTEXT_VERSION_MINOR 3)
                          (glfw (Call.glfwWindowHint GLFW_CONTEXT_VERSION_MAJOR 3)
                            (glfw Call.glfwInit World.start))))))))))))).1
    (create_mesh env 3 vertices 3 indices _ _).1 frames
    { greenValue := 0, redValue := 0, blueValue := 0 }
    (create_mesh env 3 vertices 3 indices _ _).2
  refine ⟨d, ?_, hc⟩
  rw [hd, create_mesh_steps, create_shader_program_steps]
  simp [setupSteps, World.start]

theorem main_calls_of_noWindow (hw : env.windowOk = false) :
    (main env frames).2.calls =
      [Call.glfwInit,
       Call.glfwWindowHint GLFW_CONTEXT_VERSION_MAJOR 3,
       Call.glfwWindowHint GLFW_CONTEXT_VERSION_MINOR 3,
       Call.glfwWindowHint GLFW_OPENGL_PROFILE GLFW_OPENGL_CORE_PROFILE,
       Call.glfwWindowHint GLFW_OPENGL_FORWARD_COMPAT 1,
       Call.glfwWindowHint GLFW_RESIZABLE 0,
       Call.glfwCreateWindow 800 600 "LearnOpenGL",
       Call.glfwTerminate] := by
  simp [main, hw, World.start]

theorem main_calls_of_noGlew (hw : env.windowOk = true) (hg : env.glewOk = false) :
    (main env frames).2.calls =
      [Call.glfwInit,
       Call.glfwWindowHint GLFW_CONTEXT_VERSION_MAJOR 3,
       Call.glfwWindowHint GLFW_CONTEXT_VERSION_MINOR 3,
       Call.glfwWindowHint GLFW_OPENGL_PROFILE GLFW_OPENGL_CORE_PROFILE,
       Call.glfwWindowHint GLFW_OPENGL_FORWARD_COMPAT 1,
       Call.glfwWindowHint GLFW_RESIZABLE 0,
       Call.glfwCreateWindow 800 600 "LearnOpenGL",
       Call.glfwMakeContextCurrent,
       Call.glewInit] := by
  simp [main, hw, hg, World.start]

theorem setupSteps_no_uniform (c : Call) (h : c ∈ setupSteps env) : c.isUniform4f = false := by
  simp only [setupSteps, shaderProgramSteps, meshSteps, List.mem_append, List.mem_cons,
    List.mem_singleton, List.not_mem_nil, or_false] at h
  rcases h with (h | h) | h
  · rcases h with h | h | h | h | h | h | h | h | h | h | h | h <;> subst h <;> rfl
  · rcases h with (((((h | h) | h) | h) | h) | h) | h
    · rcases h with h | h | h | h <;> subst h <;> rfl
    · split_ifs at h
      · simp only [List.mem_singleton] at h; subst h; rfl
      · simp at h
    · rcases h with h | h | h | h <;> subst h <;> rfl
    · split_ifs at h
      · simp only [List.mem_singleton] at h; subst h; rfl
      · simp at h
    · rcases h with h | h | h | h | h <;> subst h <;> rfl
    · split_ifs at h
      · simp only [List.mem_singleton] at h; subst h; rfl
      · simp at h
    · rcases h with h | h <;> subst h <;> rfl
  · rcases h with h | h | h | h | h | h | h | h | h | h | h <;> subst h <;> rfl

end Main

theorem commands_setupSteps (env : Env) :
    commands (setupSteps env) =
      [Call.glfwInit,
       Call.glfwWindowHint GLFW_CONTEXT_VERSION_MAJOR 3,
       Call.glfwWindowHint GLFW_CONTEXT_VERSION_MINOR 3,
       Call.glfwWindowHint GLFW_OPENGL_PROFILE GLFW_OPENGL_CORE_PROFILE,
       Call.glfwWindowHint GLFW_OPENGL_FORWARD_COMPAT 1,
       Call.glfwWindowHint GLFW_RESIZABLE 0,
       Call.glfwCreateWindow 800 600 "LearnOpenGL",
       Call.glfwMakeContextCurrent,
       Call.glewInit,
       Call.glViewport 0 0 env.fbWidth env.fbHeight,
       Call.glfwSetKeyCallback,
       Call.glCreateShader GL_VERTEX_SHADER,
       Call.glShaderSource (env.createShader GL_VERTEX_SHADER) 1 vertex_shader_src,
       Call.glCompileShader (env.createShader GL_VERTEX_SHADER),
       Call.glCreateShader GL_FRAGMENT_SHADER,
       Call.glShaderSource (env.createShader GL_FRAGMENT_SHADER) 1 fragment_shader_src,
       Call.glCompileShader (env.createShader GL_FRAGMENT_SHADER),
       Call.glCreateProgram,
       Call.glAttachShader env.createProgram (env.createShader GL_VERTEX_SHADER),
       Call.glAttachShader env.createProgram (env.createShader GL_FRAGMENT_SHADER),
       Call.glLinkProgram env.createProgram,
       Call.glDeleteShader (env.createShader GL_VERTEX_SHADER),
       Call.glDeleteShader (env.createShader GL_FRAGMENT_SHADER),
       Call.glGenVertexArrays 1,
       Call.glGenBuffers 1,
       Call.glGenBuffers 1,
       Call.glBindVertexArray env.genVertexArray,
       Call.glBindBuffer GL_ARRAY_BUFFER env.genBufferFirst,
       Call.glBufferData GL_ARRAY_BUFFER 36 (Blob.floats vertices) GL_STATIC_DRAW,
       Call.glBindBuffer GL_ELEMENT_ARRAY_BUFFER env.genBufferSecond,
       Call.glBufferData GL_ELEMENT_ARRAY_BUFFER 12 (Blob.uints indices) GL_STATIC_DRAW,
       Call.glVertexAttribPointer 0 3 GL_FLOAT GL_FALSE 12 0,
       Call.glEnableVertexAttribArray 0,
       Call.glBindVertexArray 0] := by
  have h36 : to_GLsizeiptr (to_int (to_size_t (to_size_t (to_size_t 3 * sizeof_GLfloat) * 3)))
      = 36 := by decide
  have h12 : to_GLsizeiptr (to_size_t (to_size_t 3 * sizeof_GLuint)) = 12 := by decide
  have hst : to_int (to_size_t (3 * sizeof_GLfloat)) = 12 := by decide
  simp only [setupSteps, shaderProgramSteps, meshSteps, h36, h12, hst, commands_append]
  by_cases h1 : env.compileStatus (env.createShader GL_VERTEX_SHADER) = 0 <;>
  by_cases h2 : env.compileStatus (env.createShader GL_FRAGMENT_SHADER) = 0 <;>
  by_cases h3 : env.linkStatus env.createProgram = 0 <;>
  simp [h1, h2, h3, commands, Call.isQuery]

theorem boundVertexArray_append_singleton (cs : List Call) (c : Call) :
    boundVertexArray (cs ++ [c]) =
      match c with
      | Call.glBindVertexArray a => a
      | _ => boundVertexArray cs := by
  unfold boundVertexArray
  rw [List.foldl_append]
  rfl

theorem boundVertexArray_glCheckError (env : Env) (line : Int) (w : World) :
    boundVertexArray (glCheckError env line w).calls = boundVertexArray w.calls := by
  obtain ⟨n, h⟩ := glCheckError_calls env w line
  rw [h]
  generalize n + 1 = m
  induction m with
  | zero => simp
  | succ m ih =>
    rw [List.replicate_succ', ← List.append_assoc, boundVertexArray_append_singleton]
    exact ih

theorem draw_mesh_calls (env : Env) (mesh : Mesh) (w : World) :
    ∃ pre post,
      (draw_mesh env mesh w).calls =
        pre ++ Call.glDrawElements GL_TRIANGLES mesh.n_indices GL_UNSIGNED_INT 0 :: post ∧
      (∃ mid, pre = w.calls ++ mid ∧ mid.filter Call.isDrawElements = []) ∧
      boundVertexArray pre = mesh.VAO ∧
      post.filter Call.isDrawElements = [] ∧
      steps post = [Call.glBindVertexArray 0] ∧
      boundVertexArray (draw_mesh env mesh w).calls = 0 := by
  unfold draw_mesh
  simp only
  obtain ⟨n1, h1⟩ := glCheckError_calls env (gl env (Call.glBindVertexArray mesh.VAO) w) 221
  obtain ⟨n2, h2⟩ := glCheckError_calls env
    (gl env (Call.glPolygonMode GL_FRONT_AND_BACK mesh.draw_mode)
      (glCheckError env 221 (gl env (Call.glBindVertexArray mesh.VAO) w))) 223
  obtain ⟨n3, h3⟩ := glCheckError_calls env
    (gl env (Call.glDrawElements GL_TRIANGLES mesh.n_indices GL_UNSIGNED_INT 0)
      (glCheckError env 223 (gl env (Call.glPolygonMode GL_FRONT_AND_BACK mesh.draw_mode)
        (glCheckError env 221 (gl env (Call.glBindVertexArray mesh.VAO) w))))) 225
  obtain ⟨n4, h4⟩ := glCheckError_calls env
    (gl env (Call.glBindVertexArray 0)
      (glCheckError env 225
        (gl env (Call.glDrawElements GL_TRIANGLES mesh.n_indices GL_UNSIGNED_INT 0)
          (glCheckError env 223 (gl env (Call.glPolygonMode GL_FRONT_AND_BACK mesh.draw_mode)
            (glCheckError env 221 (gl env (Call.glBindVertexArray mesh.VAO) w))))))) 227
  refine ⟨(glCheckError env 223 (gl env (Call.glPolygonMode GL_FRONT_AND_BACK mesh.draw_mode)
        (glCheckError env 221 (gl env (Call.glBindVertexArray mesh.VAO) w)))).calls,
    List.replicate (n3 + 1) Call.glGetError ++ Call.glBindVertexArray 0 ::
      List.replicate (n4 + 1) Call.glGetError, ?_, ?_, ?_, ?_, ?_, ?_⟩
  · rw [h4, gl_calls, h3, gl_calls]
    simp
  · refine ⟨[Call.glBindVertexArray mesh.VAO] ++ List.replicate (n1 + 1) Call.glGetError ++
      [Call.glPolygonMode GL_FRONT_AND_BACK mesh.draw_mode] ++
      List.replicate (n2 + 1) Call.glGetError, ?_, ?_⟩
    · rw [h2, gl_calls, h1, gl_calls]
      simp
    · simp [List.filter_eq_nil_iff, Call.isDrawElements]
  · rw [boundVertexArray_glCheckError, gl_calls, boundVertexArray_append_singleton]
    simp only
    rw [boundVertexArray_glCheckError, gl_calls, boundVertexArray_append_singleton]
  · simp [List.filter_eq_nil_iff, Call.isDrawElements]
  · simp [steps, List.filter_eq_nil_iff]
  · rw [boundVertexArray_glCheckError, gl_calls, boundVertexArray_append_singleton]

theorem create_shader_program_fst (env : Env) (w : World) :
    (create_shader_program env vertex_shader_src fragment_shader_src w).1 = mainShader env :=
  rfl

theorem create_mesh_fst (env : Env) (w : World) :
    (create_mesh env 3 vertices 3 indices (mainShader env) w).1 = mainTriangle env :=
  rfl

theorem main_loop_body_of_poll (env : Env) (shader : ShaderProgram) (triangle : Mesh)
    (f : Frame) (l : Locals) (w : World) (hpoll : (glfwPollEvents f.events w).2 = true) :
    main_loop_body env shader triangle f l w =
      main_loop_frame env shader triangle f l (glfwPollEvents f.events w).1 := by
  unfold main_loop_body
  simp only [hpoll, if_true]

theorem main_loop_body_steps_of_ok (env : Env) (shader : ShaderProgram) (triangle : Mesh)
    (f : Frame) (l : Locals) (w : World) (hpoll : (glfwPollEvents f.events w).2 = true)
    (hloc : f.location ≠ -1) :
    steps (main_loop_body env shader triangle f l w).2.2.calls =
      steps w.calls ++ Call.glfwPollEvents :: closeRequests f.events ++
        [Call.glfwGetTime,
         Call.glClearColor (2 / 10) (3 / 10) (3 / 10) 1,
         Call.glClear GL_COLOR_BUFFER_BIT,
         Call.glGetUniformLocation shader.id "ourColor",
         Call.glUseProgram shader.id,
         Call.glUniform4f f.location
           (main_loop_body env shader triangle f l w).2.1.redValue
           (main_loop_body env shader triangle f l w).2.1.greenValue
           (main_loop_body env shader triangle f l w).2.1.blueValue 1,
         Call.glBindVertexArray triangle.VAO,
         Call.glPolygonMode GL_FRONT_AND_BACK triangle.draw_mode,
         Call.glDrawElements GL_TRIANGLES triangle.n_indices GL_UNSIGNED_INT 0,
         Call.glBindVertexArray 0,
         Call.glfwSwapBuffers] := by
  obtain ⟨pre, -, hpre, hp⟩ := steps_glfwPollEvents f.events w
  rw [hpre hpoll] at hp
  rw [main_loop_body_of_poll env shader triangle f l w hpoll, main_loop_frame_steps, hp]
  simp [hloc]

theorem commands_closeRequests (es : List KeyEvent) :
    commands (closeRequests es) = closeRequests es := by
  simp [commands, closeRequests, List.filter_eq_self, Call.isQuery]

theorem main_loop_of_shouldClose (env : Env) (shader : ShaderProgram) (triangle : Mesh)
    (fs : List Frame) (l : Locals) (w : World) (h : w.shouldClose = true) :
    main_loop env shader triangle fs l w =
      (Outcome.returned 0, glfw Call.glfwTerminate (glfw Call.glfwWindowShouldClose w)) := by
  cases fs <;> simp [main_loop, h]

theorem glfwPollEvents_shouldClose (es : List KeyEvent) (w : World)
    (hpoll : (glfwPollEvents es w).2 = true) :
    (glfwPollEvents es w).1.shouldClose = (w.shouldClose || es.any KeyEvent.isEscapePress) := by
  obtain ⟨pre, -, h2, -, h4, -⟩ := dispatch_frame es (glfw Call.glfwPollEvents w)
  have := h2 hpoll
  subst this
  exact h4

theorem main_eq_main_loop (env : Env) (frames : List Frame)
    (hw : env.windowOk = true) (hg : env.glewOk = true) :
    ∃ w, w.shouldClose = false ∧
      main env frames =
        main_loop env (mainShader env) (mainTriangle env) frames
          { greenValue := 0, redValue := 0, blueValue := 0 } w := by
  unfold main
  simp only [hw, hg, Bool.true_eq_false, if_false]
  rw [create_shader_program_fst env, create_mesh_fst env]
  refine ⟨_, ?_, rfl⟩
  rw [create_mesh_shouldClose, create_shader_program_shouldClose]
  rfl

theorem main_bufferData (env : Env) (frames : List Frame)
    (hw : env.windowOk = true) (hg : env.glewOk = true) :
    (main env frames).2.calls.filter Call.isBufferData =
      [Call.glBufferData GL_ARRAY_BUFFER 36 (Blob.floats vertices) GL_STATIC_DRAW,
       Call.glBufferData GL_ELEMENT_ARRAY_BUFFER 12 (Blob.uints indices) GL_STATIC_DRAW] := by
  obtain ⟨d, hd, hc⟩ := main_steps_of_ok env frames hw hg
  have hloop : d.filter Call.isBufferData = [] := by
    rw [List.filter_eq_nil_iff]
    intro c hcd hb
    have := hc c hcd
    cases c <;> simp [Call.isBufferData] at hb
    exact this
  have h36 : to_GLsizeiptr (to_int (to_size_t (to_size_t (to_size_t 3 * sizeof_GLfloat) * 3)))
      = 36 := by decide
  have h12 : to_GLsizeiptr (to_size_t (to_size_t 3 * sizeof_GLuint)) = 12 := by decide
  rw [filter_steps_isBufferData, hd, List.filter_append, hloop, List.append_nil]
  simp only [setupSteps, shaderProgramSteps, meshSteps, h36, h12]
  by_cases h1 : env.compileStatus (env.createShader GL_VERTEX_SHADER) = 0 <;>
  by_cases h2 : env.compileStatus (env.createShader GL_FRAGMENT_SHADER) = 0 <;>
  by_cases h3 : env.linkStatus env.createProgram = 0 <;>
  simp [h1, h2, h3, Call.isBufferData]

/-! ## Error checks and the first draw -/

theorem eachChecked_append :
    ∀ t1 t2 : List Call, eachChecked t1 = true → eachChecked t2 = true →
      eachChecked (t1 ++ t2) = true
  | [], _, _, h2 => h2
  | [c], [], h1, _ => h1
  | [c], d :: r, h1, h2 => by
    show eachChecked (c :: d :: r) = true
    simp only [eachChecked] at h1 ⊢
    simp [h1, h2]
  | c :: d :: rest, t2, h1, h2 => by
    show eachChecked (c :: d :: (rest ++ t2)) = true
    simp only [eachChecked, Bool.and_eq_true] at h1 ⊢
    exact ⟨h1.1, eachChecked_append (d :: rest) t2 h1.2 h2⟩

theorem eachChecked_polls (n : Nat) :
    eachChecked (List.replicate (n + 1) Call.glGetError) = true := by
  induction n with
  | zero => rfl
  | succ n ih =>
    rw [List.replicate_succ]
    rw [List.replicate_succ] at ih ⊢
    simp only [eachChecked, Bool.and_eq_true]
    exact ⟨by simp, ih⟩

theorem eachChecked_call_polls (c : Call) (n : Nat) :
    eachChecked (c :: List.replicate (n + 1) Call.glGetError) = true := by
  rw [List.replicate_succ]
  simp only [eachChecked, Bool.and_eq_true]
  refine ⟨by simp, ?_⟩
  have := eachChecked_polls n
  rwa [List.replicate_succ] at this

theorem CheckedFrom.refl (base : List Call) : CheckedFrom base base :=
  ⟨[], by simp, rfl⟩

theorem CheckedFrom.trans {a b c : List Call} (h1 : CheckedFrom a b) (h2 : CheckedFrom b c) :
    CheckedFrom a c := by
  obtain ⟨t1, e1, c1⟩ := h1
  obtain ⟨t2, e2, c2⟩ := h2
  exact ⟨t1 ++ t2, by rw [e2, e1, List.append_assoc], eachChecked_append _ _ c1 c2⟩

theorem CheckedFrom.of_calls (env : Env) (line : Int) (base : List Call) (c : Call)
    (w w' : World) (hw : w'.calls = w.calls ++ [c]) (h : CheckedFrom base w.calls) :
    CheckedFrom base (glCheckError env line w').calls := by
  obtain ⟨n, hn⟩ := glCheckError_calls env w' line
  obtain ⟨t, ht, hc⟩ := h
  refine ⟨t ++ c :: List.replicate (n + 1) Call.glGetError, ?_,
    eachChecked_append _ _ hc (eachChecked_call_polls c n)⟩
  rw [hn, hw, ht]
  simp

theorem CheckedFrom.step (env : Env) (line : Int) (base : List Call) (c : Call) (w : World)
    (h : CheckedFrom base w.calls) :
    CheckedFrom base (glCheckError env line (gl env c w)).calls :=
  CheckedFrom.of_calls env line base c w _ rfl h

theorem CheckedFrom.step_success (env : Env) (line : Int) (base : List Call) (c : Call)
    (w : World) (s : Int) (h : CheckedFrom base w.calls) :
    CheckedFrom base (glCheckError env line { gl env c w with success := s }).calls :=
  CheckedFrom.of_calls env line base c w _ rfl h

theorem CheckedFrom.step_infoLog (env : Env) (line : Int) (base : List Call) (c : Call)
    (w : World) (s : String) (h : CheckedFrom base w.calls) :
    CheckedFrom base (glCheckError env line { gl env c w with infoLog := s }).calls :=
  CheckedFrom.of_calls env line base c w _ rfl h

theorem create_shader_checked (env : Env) (t : ShaderType) (src : String) (w : World) :
    CheckedFrom w.calls (create_shader env t src w).2.calls := by
  have h0 := CheckedFrom.refl w.calls
  cases t
  all_goals
    unfold create_shader
    dsimp only
    split
    · dsimp only
      refine CheckedFrom.step_infoLog _ _ _ _ _ _ ?_
      refine CheckedFrom.step_success _ _ _ _ _ _ ?_
      refine CheckedFrom.step _ _ _ _ _ ?_
      refine CheckedFrom.step _ _ _ _ _ ?_
      refine CheckedFrom.step _ _ _ _ _ ?_
      exact h0
    · refine CheckedFrom.step_success _ _ _ _ _ _ ?_
      refine CheckedFrom.step _ _ _ _ _ ?_
      refine CheckedFrom.step _ _ _ _ _ ?_
      refine CheckedFrom.step _ _ _ _ _ ?_
      exact h0

theorem create_shader_program_checked (env : Env) (v f : String) (w : World) :
    CheckedFrom w.calls (create_shader_program env v f w).2.calls := by
  have h0 := CheckedFrom.trans (create_shader_checked env ShaderType.VERTEX v w)
    (create_shader_checked env ShaderType.FRAGMENT f
      (create_shader env ShaderType.VERTEX v w).2)
  unfold create_shader_program
  dsimp only
  refine CheckedFrom.step _ _ _ _ _ ?_
  refine CheckedFrom.step _ _ _ _ _ ?_
  split
  · dsimp only
    refine CheckedFrom.step_infoLog _ _ _ _ _ _ ?_
    refine CheckedFrom.step_success _ _ _ _ _ _ ?_
    refine CheckedFrom.step _ _ _ _ _ ?_
    refine CheckedFrom.step _ _ _ _ _ ?_
    refine CheckedFrom.step _ _ _ _ _ ?_
    refine CheckedFrom.step _ _ _ _ _ ?_
    exact h0
  · refine CheckedFrom.step_success _ _ _ _ _ _ ?_
    refine CheckedFrom.step _ _ _ _ _ ?_
    refine CheckedFrom.step _ _ _ _ _ ?_
    refine CheckedFrom.step _ _ _ _ _ ?_
    refine CheckedFrom.step _ _ _ _ _ ?_
    exact h0

theorem create_shader_program_tail (env : Env) (v f : String) (w : World) :
    ∃ t, (create_shader_program env v f w).2.calls = w.calls ++ t ∧
      eachChecked t = true ∧ steps t = shaderProgramSteps env v f := by
  obtain ⟨t, ht, hc⟩ := create_shader_program_checked env v f w
  refine ⟨t, ht, hc, ?_⟩
  have hs := create_shader_program_steps env w v f
  rw [ht, steps_append] at hs
  exact List.append_cancel_left hs

theorem shaderProgramSteps_without_infoLog (env : Env) (v f : String) :
    (shaderProgramSteps env v f).filter (fun c => !c.isInfoLog) =
      [Call.glCreateShader GL_VERTEX_SHADER,
       Call.glShaderSource (env.createShader GL_VERTEX_SHADER) 1 v,
       Call.glCompileShader (env.createShader GL_VERTEX_SHADER),
       Call.glGetShaderiv (env.createShader GL_VERTEX_SHADER) GL_COMPILE_STATUS,
       Call.glCreateShader GL_FRAGMENT_SHADER,
       Call.glShaderSource (env.createShader GL_FRAGMENT_SHADER) 1 f,
       Call.glCompileShader (env.createShader GL_FRAGMENT_SHADER),
       Call.glGetShaderiv (env.createShader GL_FRAGMENT_SHADER) GL_COMPILE_STATUS,
       Call.glCreateProgram,
       Call.glAttachShader env.createProgram (env.createShader GL_VERTEX_SHADER),
       Call.glAttachShader env.createProgram (env.createShader GL_FRAGMENT_SHADER),
       Call.glLinkProgram env.createProgram,
       Call.glGetProgramiv env.createProgram GL_LINK_STATUS,
       Call.glDeleteShader (env.createShader GL_VERTEX_SHADER),
       Call.glDeleteShader (env.createShader GL_FRAGMENT_SHADER)] := by
  simp only [shaderProgramSteps]
  by_cases h1 : env.compileStatus (env.createShader GL_VERTEX_SHADER) = 0 <;>
  by_cases h2 : env.compileStatus (env.createShader GL_FRAGMENT_SHADER) = 0 <;>
  by_cases h3 : env.linkStatus env.createProgram = 0 <;>
  simp [h1, h2, h3, Call.isInfoLog]

/-- A call that survives the removal of the error polls sits in the trace
itself, with what precedes and follows it. -/
theorem split_of_steps (cs a b : List Call) (c : Call) (h : steps cs = a ++ c :: b) :
    ∃ pre post, cs = pre ++ c :: post ∧ steps pre = a ∧ steps post = b := by
  unfold steps at h
  obtain ⟨l1, l2, rfl, h1, h2⟩ := List.filter_eq_append_iff.mp h
  obtain ⟨m1, m2, rfl, h3, -, h4⟩ := List.filter_eq_cons_iff.mp h2
  refine ⟨l1 ++ m1, m2, by simp, ?_, h4⟩
  unfold steps
  rw [List.filter_append, h1, List.filter_eq_nil_iff.mpr h3, List.append_nil]

theorem main_eq_main_loop_steps (env : Env) (frames : List Frame)
    (hw : env.windowOk = true) (hg : env.glewOk = true) :
    ∃ w, w.shouldClose = false ∧ steps w.calls = setupSteps env ∧
      main env frames =
        main_loop env (mainShader env) (mainTriangle env) frames
          { greenValue := 0, redValue := 0, blueValue := 0 } w := by
  unfold main
  simp only [hw, hg, Bool.true_eq_false, if_false]
  rw [create_shader_program_fst env, create_mesh_fst env]
  refine ⟨_, ?_, ?_, rfl⟩
  · rw [create_mesh_shouldClose, create_shader_program_shouldClose]
    rfl
  · rw [create_mesh_steps, create_shader_program_steps]
    simp [setupSteps, World.start]

/-- The first iteration of the loop, entered with the close flag down: when
its poll returns and its uniform lookup succeeds, the trace continues with the
calls of the iteration. -/
theorem main_loop_first_steps (env : Env) (shader : ShaderProgram) (triangle : Mesh)
    (f : Frame) (fs : List Frame) (l : Locals) (w : World) (hc : w.shouldClose = false)
    (hin : ∀ e ∈ f.events, e.inBounds) (hloc : f.location ≠ -1) :
    ∃ r g b d, steps (main_loop env shader triangle (f :: fs) l w).2.calls =
      (steps w.calls ++ Call.glfwWindowShouldClose :: Call.glfwPollEvents ::
        closeRequests f.events ++
        [Call.glfwGetTime,
         Call.glClearColor (2 / 10) (3 / 10) (3 / 10) 1,
         Call.glClear GL_COLOR_BUFFER_BIT,
         Call.glGetUniformLocation shader.id "ourColor",
         Call.glUseProgram shader.id,
         Call.glUniform4f f.location r g b 1,
         Call.glBindVertexArray triangle.VAO,
         Call.glPolygonMode GL_FRONT_AND_BACK triangle.draw_mode]) ++
      Call.glDrawElements GL_TRIANGLES triangle.n_indices GL_UNSIGNED_INT 0 :: d := by
  have hpoll : (glfwPollEvents f.events (glfw Call.glfwWindowShouldClose w)).2 = true :=
    dispatch_inBounds f.events _ hin
  have hsteps := main_loop_body_steps_of_ok env shader triangle f l
    (glfw Call.glfwWindowShouldClose w) hpoll hloc
  have hflow : (main_loop_body env shader triangle f l
      (glfw Call.glfwWindowShouldClose w)).1 = Flow.next := by
    rw [main_loop_body_of_poll _ _ _ _ _ _ hpoll, main_loop_frame_flow, if_neg hloc]
  obtain ⟨d, hd, -⟩ := main_loop_steps env shader triangle fs
    (main_loop_body env shader triangle f l (glfw Call.glfwWindowShouldClose w)).2.1
    (main_loop_body env shader triangle f l (glfw Call.glfwWindowShouldClose w)).2.2
  refine ⟨(main_loop_body env shader triangle f l (glfw Call.glfwWindowShouldClose w)).2.1.redValue,
    (main_loop_body env shader triangle f l (glfw Call.glfwWindowShouldClose w)).2.1.greenValue,
    (main_loop_body env shader triangle f l (glfw Call.glfwWindowShouldClose w)).2.1.blueValue,
    [Call.glBindVertexArray 0, Call.glfwSwapBuffers] ++ d, ?_⟩
  unfold main_loop
  simp only [glfw_shouldClose, hc, Bool.false_eq_true, if_false, hflow]
  rw [hd, hsteps]
  simp

theorem setupSteps_no_draw (env : Env) :
    (setupSteps env).filter Call.isDrawElements = [] := by
  simp only [setupSteps, shaderProgramSteps, meshSteps]
  by_cases h1 : env.compileStatus (env.createShader GL_VERTEX_SHADER) = 0 <;>
  by_cases h2 : env.compileStatus (env.createShader GL_FRAGMENT_SHADER) = 0 <;>
  by_cases h3 : env.linkStatus env.createProgram = 0 <;>
  simp [h1, h2, h3, Call.isDrawElements]

/-! ## The claims -/

/-- C1: in one iteration of the main loop (with `held` the key table after
this iteration's `glfwPollEvents` and `dt` the clock value minus `lastFrame`),
each channel becomes `clamp01 (v + dt)` if the first key of its pair is held,
otherwise `clamp01 (v - dt)` if the second is held, otherwise `clamp01 v`, for
green with W (87) / S (83), red with D (68) / A (65), blue with E (69) / Q (81);
so the increasing key wins when both are held, and a channel in `[0, 1]` is
unchanged when neither key is held. -/
theorem main_loop_colour_shift (env : Env) (shader : ShaderProgram) (triangle : Mesh)
    (f : Frame) (l : Locals) (w : World) (hpoll : (glfwPollEvents f.events w).2 = true) :
    (main_loop_body env shader triangle f l w).2.1.greenValue =
      clamp01 (if (glfwPollEvents f.events w).1.KEY_PRESSED 87 = true
          then l.greenValue + (f.time - w.lastFrame)
        else if (glfwPollEvents f.events w).1.KEY_PRESSED 83 = true
          then l.greenValue - (f.time - w.lastFrame)
        else l.greenValue) ∧
    (main_loop_body env shader triangle f l w).2.1.redValue =
      clamp01 (if (glfwPollEvents f.events w).1.KEY_PRESSED 68 = true
          then l.redValue + (f.time - w.lastFrame)
        else if (glfwPollEvents f.events w).1.KEY_PRESSED 65 = true
          then l.redValue - (f.time - w.lastFrame)
        else l.redValue) ∧
    (main_loop_body env shader triangle f l w).2.1.blueValue =
      clamp01 (if (glfwPollEvents f.events w).1.KEY_PRESSED 69 = true
          then l.blueValue + (f.time - w.lastFrame)
        else if (glfwPollEvents f.events w).1.KEY_PRESSED 81 = true
          then l.blueValue - (f.time - w.lastFrame)
        else l.blueValue) ∧
    ((glfwPollEvents f.events w).1.KEY_PRESSED 87 = true →
      (glfwPollEvents f.events w).1.KEY_PRESSED 83 = true →
      (main_loop_body env shader triangle f l w).2.1.greenValue =
        clamp01 (l.greenValue + (f.time - w.lastFrame))) ∧
    ((glfwPollEvents f.events w).1.KEY_PRESSED 68 = true →
      (glfwPollEvents f.events w).1.KEY_PRESSED 65 = true →
      (main_loop_body env shader triangle f l w).2.1.redValue =
        clamp01 (l.redValue + (f.time - w.lastFrame))) ∧
    ((glfwPollEvents f.events w).1.KEY_PRESSED 69 = true →
      (glfwPollEvents f.events w).1.KEY_PRESSED 81 = true →
      (main_loop_body env shader triangle f l w).2.1.blueValue =
        clamp01 (l.blueValue + (f.time - w.lastFrame))) ∧
    ((glfwPollEvents f.events w).1.KEY_PRESSED 87 = false →
      (glfwPollEvents f.events w).1.KEY_PRESSED 83 = false →
      0 ≤ l.greenValue → l.greenValue ≤ 1 →
      (main_loop_body env shader triangle f l w).2.1.greenValue = l.greenValue) ∧
    ((glfwPollEvents f.events w).1.KEY_PRESSED 68 = false →
      (glfwPollEvents f.events w).1.KEY_PRESSED 65 = false →
      0 ≤ l.redValue → l.redValue ≤ 1 →
      (main_loop_body env shader triangle f l w).2.1.redValue = l.redValue) ∧
    ((glfwPollEvents f.events w).1.KEY_PRESSED 69 = false →
      (glfwPollEvents f.events w).1.KEY_PRESSED 81 = false →
      0 ≤ l.blueValue → l.blueValue ≤ 1 →
      (main_loop_body env shader triangle f l w).2.1.blueValue = l.blueValue) := by
  have hg :
    (main_loop_body env shader triangle f l w).2.1.greenValue =
      clamp01 (if (glfwPollEvents f.events w).1.KEY_PRESSED 87 = true
          then l.greenValue + (f.time - w.lastFrame)
        else if (glfwPollEvents f.events w).1.KEY_PRESSED 83 = true
          then l.greenValue - (f.time - w.lastFrame)
        else l.greenValue) := by
    unfold main_loop_body
    simp only [hpoll, if_true]
    by_cases h : f.location = -1 <;>
    simp only [main_loop_frame, h, if_true, if_false, glfw_lastFrame, glfw_KEY_PRESSED,
      fmin_fmax_eq, glfwPollEvents_lastFrame] <;> rfl
  have hr :
    (main_loop_body env shader triangle f l w).2.1.redValue =
      clamp01 (if (glfwPollEvents f.events w).1.KEY_PRESSED 68 = true
          then l.redValue + (f.time - w.lastFrame)
        else if (glfwPollEvents f.events w).1.KEY_PRESSED 65 = true
          then l.redValue - (f.time - w.lastFrame)
        else l.redValue) := by
    unfold main_loop_body
    simp only [hpoll, if_true]
    by_cases h : f.location = -1 <;>
    simp only [main_loop_frame, h, if_true, if_false, glfw_lastFrame, glfw_KEY_PRESSED,
      fmin_fmax_eq, glfwPollEvents_lastFrame] <;> rfl
  have hb :
    (main_loop_body env shader triangle f l w).2.1.blueValue =
      clamp01 (if (glfwPollEvents f.events w).1.KEY_PRESSED 69 = true
          then l.blueValue + (f.time - w.lastFrame)
        else if (glfwPollEvents f.events w).1.KEY_PRESSED 81 = true
          then l.blueValue - (f.time - w.lastFrame)
        else l.blueValue) := by
    unfold main_loop_body
    simp only [hpoll, if_true]
    by_cases h : f.location = -1 <;>
    simp only [main_loop_frame, h, if_true, if_false, glfw_lastFrame, glfw_KEY_PRESSED,
      fmin_fmax_eq, glfwPollEvents_lastFrame] <;> rfl
  refine ⟨hg, hr, hb, ?_, ?_, ?_, ?_, ?_, ?_⟩
  · intro h1 _; rw [hg, if_pos h1]
  · intro h1 _; rw [hr, if_pos h1]
  · intro h1 _; rw [hb, if_pos h1]
  · intro h1 h2 h3 h4
    rw [hg, if_neg (by simp [h1]), if_neg (by simp [h2]), clamp01_of_mem _ h3 h4]
  · intro h1 h2 h3 h4
    rw [hr, if_neg (by simp [h1]), if_neg (by simp [h2]), clamp01_of_mem _ h3 h4]
  · intro h1 h2 h3 h4
    rw [hb, if_neg (by simp [h1]), if_neg (by simp [h2]), clamp01_of_mem _ h3 h4]

theorem main_loop_colour_shift_witness :
    (glfwPollEvents sampleFrame.events World.start).2 = true ∧
    (main_loop_body Env.sample (mainShader Env.sample) (mainTriangle Env.sample) sampleFrame
      ⟨1 / 2, 1 / 2, 1 / 2⟩ World.start).2.1.redValue =
        clamp01 (1 / 2 + (sampleFrame.time - World.start.lastFrame)) ∧
    (main_loop_body Env.sample (mainShader Env.sample) (mainTriangle Env.sample) sampleFrame
      ⟨1 / 2, 1 / 2, 1 / 2⟩ World.start).2.1.blueValue = 1 / 2 :=
  ⟨sampleFrame_poll,
   (main_loop_colour_shift Env.sample (mainShader Env.sample) (mainTriangle Env.sample) sampleFrame
      ⟨1 / 2, 1 / 2, 1 / 2⟩ World.start sampleFrame_poll).2.2.2.2.1 (by decide) (by decide),
   (main_loop_colour_shift Env.sample (mainShader Env.sample) (mainTriangle Env.sample) sampleFrame
      ⟨1 / 2, 1 / 2, 1 / 2⟩ World.start sampleFrame_poll).2.2.2.2.2.2.2.2
      (by decide) (by decide) (by norm_num) (by norm_num)⟩

/-- C2: whatever the environment, the key events and the clock values
(increasing, equal or decreasing from frame to frame), and however many
iterations run, every `glUniform4f` call of `main` (whose colours start at 0)
passes red, green and blue in `[0, 1]` and alpha 1. -/
theorem main_uniform_colours_clamped (env : Env) (frames : List Frame) (location : Int)
    (v0 v1 v2 v3 : ℚ)
    (h : Call.glUniform4f location v0 v1 v2 v3 ∈ (main env frames).2.calls) :
    (0 ≤ v0 ∧ v0 ≤ 1) ∧ (0 ≤ v1 ∧ v1 ≤ 1) ∧ (0 ≤ v2 ∧ v2 ≤ 1) ∧ v3 = 1 := by
  by_cases hw : env.windowOk = true
  · by_cases hg : env.glewOk = true
    · obtain ⟨d, hd, hc⟩ := main_steps_of_ok env frames hw hg
      have hm : Call.glUniform4f location v0 v1 v2 v3 ∈ steps (main env frames).2.calls :=
        (mem_steps _ _).mpr ⟨h, by simp⟩
      rw [hd, List.mem_append] at hm
      rcases hm with hm | hm
      · have := setupSteps_no_uniform env _ hm
        simp [Call.isUniform4f] at this
      · exact hc _ hm
    · rw [main_calls_of_noGlew env frames hw (by simpa using hg)] at h
      simp at h
  · rw [main_calls_of_noWindow env frames (by simpa using hw)] at h
    simp at h

theorem main_uniform_colours_clamped_witness :
    Call.glUniform4f 0 (1 / 4) (1 / 4) 0 1 ∈ (main Env.sample [sampleFrame]).2.calls ∧
    ((0 : ℚ) ≤ 1 / 4 ∧ (1 / 4 : ℚ) ≤ 1) ∧ ((0 : ℚ) ≤ 1 / 4 ∧ (1 / 4 : ℚ) ≤ 1) ∧
      ((0 : ℚ) ≤ 0 ∧ (0 : ℚ) ≤ 1) ∧ (1 : ℚ) = 1 :=
  ⟨by decide!,
   main_uniform_colours_clamped Env.sample [sampleFrame] 0 (1 / 4) (1 / 4) 0 1
     (by decide!)⟩

/-- C3: for a key code `k` with `0 ≤ k < 1024` and any action `a`,
`key_callback` returns, with `KEY_PRESSED[k]` true when `a` is `GLFW_PRESS`,
false when `a` is `GLFW_RELEASE`, unchanged for any other action, and every
other entry unchanged.  Hence, from the zero-initialised table, after any run
of events with key codes in `0..1023` all callbacks return and `KEY_PRESSED[k]`
is true exactly when the last press-or-release event for `k` was a press. -/
theorem key_callback_tracks_keys (k scancode a mode : Int) (w : World)
    (hk : 0 ≤ k ∧ k < 1024) :
    (∃ w', key_callback k scancode a mode w = some w' ∧
      ∀ j : Fin 1024, w'.KEY_PRESSED j =
        if ((j : Nat) : Int) = k ∧ a = GLFW_PRESS then true
        else if ((j : Nat) : Int) = k ∧ a = GLFW_RELEASE then false
        else w.KEY_PRESSED j) ∧
    (∀ es : List KeyEvent, (∀ e ∈ es, 0 ≤ e.key ∧ e.key < 1024) →
      (∀ j, w.KEY_PRESSED j = false) →
      ∃ w', dispatch es w = (w', true) ∧
        (w'.KEY_PRESSED ⟨k.toNat, by omega⟩ = true ↔
          ∃ e, lastPressOrRelease es k = some e ∧ e.action = GLFW_PRESS)) := by
  refine ⟨key_callback_table k scancode a mode w hk, ?_⟩
  intro es hes hw
  obtain ⟨w', h1, h2⟩ := dispatch_table es w hes
  refine ⟨w', h1, ?_⟩
  have hkk : (((⟨k.toNat, by omega⟩ : Fin 1024) : Nat) : Int) = k := by
    simp only; omega
  have h3 := h2 ⟨k.toNat, by omega⟩
  simp only [hkk] at h3
  rw [h3]
  cases lastPressOrRelease es k with
  | none => simp [hw]
  | some e => simp

theorem key_callback_tracks_keys_witness :
    (∃ w', key_callback GLFW_KEY_W 25 GLFW_PRESS 0 World.start = some w' ∧
      ∀ j : Fin 1024, w'.KEY_PRESSED j =
        if ((j : Nat) : Int) = GLFW_KEY_W ∧ GLFW_PRESS = GLFW_PRESS then true
        else if ((j : Nat) : Int) = GLFW_KEY_W ∧ GLFW_PRESS = GLFW_RELEASE then false
        else World.start.KEY_PRESSED j) ∧
    ∃ w', dispatch [⟨GLFW_KEY_W, 25, GLFW_PRESS, 0⟩, ⟨GLFW_KEY_W, 25, GLFW_REPEAT, 0⟩,
        ⟨GLFW_KEY_S, 39, GLFW_PRESS, 0⟩, ⟨GLFW_KEY_S, 39, GLFW_RELEASE, 0⟩] World.start
          = (w', true) ∧
      (w'.KEY_PRESSED ⟨GLFW_KEY_W.toNat, by decide⟩ = true ↔
        ∃ e, lastPressOrRelease [⟨GLFW_KEY_W, 25, GLFW_PRESS, 0⟩,
          ⟨GLFW_KEY_W, 25, GLFW_REPEAT, 0⟩, ⟨GLFW_KEY_S, 39, GLFW_PRESS, 0⟩,
          ⟨GLFW_KEY_S, 39, GLFW_RELEASE, 0⟩] GLFW_KEY_W = some e ∧ e.action = GLFW_PRESS) :=
  ⟨(key_callback_tracks_keys GLFW_KEY_W 25 GLFW_PRESS 0 World.start (by decide)).1,
   (key_callback_tracks_keys GLFW_KEY_W 25 GLFW_PRESS 0 World.start (by decide)).2 _
     (by decide) (fun _ => rfl)⟩

/-- C4 as stated fails: `Env.broken` differs from `Env.sample` only in the
compile and link status, and the run of `create_shader_program` in it makes
calls the successful run does not make, the info-log queries, besides writing
to the error stream. -/
theorem create_shader_program_failure_queries_log :
    Call.glGetShaderInfoLog 1 512 ∈
      (create_shader_program Env.broken vertex_shader_src fragment_shader_src
        World.start).2.calls ∧
    Call.glGetProgramInfoLog 3 512 ∈
      (create_shader_program Env.broken vertex_shader_src fragment_shader_src
        World.start).2.calls ∧
    Call.glGetShaderInfoLog 1 512 ∉
      (create_shader_program Env.sample vertex_shader_src fragment_shader_src
        World.start).2.calls ∧
    Call.glGetProgramInfoLog 3 512 ∉
      (create_shader_program Env.sample vertex_shader_src fragment_shader_src
        World.start).2.calls ∧
    (create_shader_program Env.broken vertex_shader_src fragment_shader_src
        World.start).2.calls ≠
      (create_shader_program Env.sample vertex_shader_src fragment_shader_src
        World.start).2.calls ∧
    (create_shader_program Env.sample vertex_shader_src fragment_shader_src
        World.start).2.err = [] ∧
    (create_shader_program Env.broken vertex_shader_src fragment_shader_src
        World.start).2.err =
      ["ERROR::SHADER::VERTEX::COMPILATION_FAILED\n\n",
       "ERROR::SHADER::VERTEX::COMPILATION_FAILED\n\n",
       "ERROR::SHADER::PROGRAM::LINK_FAILED\n\n"] := by
  decide!

/-- C4, amended: whatever the compile status, `create_shader` returns the
handle `glCreateShader` gave; whatever the compile and link status,
`create_shader_program` returns a program holding the id `glCreateProgram`
gave.  The calls it issues are `issued`: every one of them is directly followed
by its error check (one `glGetError` poll or more), and, the polls apart, they
are in this order: create, source, compile and query the compile status of the
vertex shader, the same for the fragment shader, create the program, attach the
vertex shader, attach the fragment shader, link, query the link status, delete
both shaders, with one info-log query (`glGetShaderInfoLog`,
`glGetProgramInfoLog`) right after the status query of each step that failed.
So, info-log queries and polls apart, the sequence is the same whatever failed;
and each failure adds one message with that log to the error stream. -/
theorem create_shader_program_no_recovery (env : Env) (vertex_src fragment_src : String)
    (w : World) :
    (∀ (t : ShaderType) (src : String) (w' : World),
      (create_shader env t src w').1.id =
        env.createShader (match t with
          | ShaderType.VERTEX => GL_VERTEX_SHADER
          | ShaderType.FRAGMENT => GL_FRAGMENT_SHADER)) ∧
    (create_shader_program env vertex_src fragment_src w).1.id = env.createProgram ∧
    (∃ issued : List Call,
      (create_shader_program env vertex_src fragment_src w).2.calls = w.calls ++ issued ∧
      eachChecked issued = true ∧
      steps issued =
        [Call.glCreateShader GL_VERTEX_SHADER,
         Call.glShaderSource (env.createShader GL_VERTEX_SHADER) 1 vertex_src,
         Call.glCompileShader (env.createShader GL_VERTEX_SHADER),
         Call.glGetShaderiv (env.createShader GL_VERTEX_SHADER) GL_COMPILE_STATUS] ++
        (if env.compileStatus (env.createShader GL_VERTEX_SHADER) = 0 then
          [Call.glGetShaderInfoLog (env.createShader GL_VERTEX_SHADER) 512]
         else []) ++
        [Call.glCreateShader GL_FRAGMENT_SHADER,
         Call.glShaderSource (env.createShader GL_FRAGMENT_SHADER) 1 fragment_src,
         Call.glCompileShader (env.createShader GL_FRAGMENT_SHADER),
         Call.glGetShaderiv (env.createShader GL_FRAGMENT_SHADER) GL_COMPILE_STATUS] ++
        (if env.compileStatus (env.createShader GL_FRAGMENT_SHADER) = 0 then
          [Call.glGetShaderInfoLog (env.createShader GL_FRAGMENT_SHADER) 512]
         else []) ++
        [Call.glCreateProgram,
         Call.glAttachShader env.createProgram (env.createShader GL_VERTEX_SHADER),
         Call.glAttachShader env.createProgram (env.createShader GL_FRAGMENT_SHADER),
         Call.glLinkProgram env.createProgram,
         Call.glGetProgramiv env.createProgram GL_LINK_STATUS] ++
        (if env.linkStatus env.createProgram = 0 then
          [Call.glGetProgramInfoLog env.createProgram 512]
         else []) ++
        [Call.glDeleteShader (env.createShader GL_VERTEX_SHADER),
         Call.glDeleteShader (env.createShader GL_FRAGMENT_SHADER)] ∧
      (steps issued).filter (fun c => !c.isInfoLog) =
        [Call.glCreateShader GL_VERTEX_SHADER,
         Call.glShaderSource (env.createShader GL_VERTEX_SHADER) 1 vertex_src,
         Call.glCompileShader (env.createShader GL_VERTEX_SHADER),
         Call.glGetShaderiv (env.createShader GL_VERTEX_SHADER) GL_COMPILE_STATUS,
         Call.glCreateShader GL_FRAGMENT_SHADER,
         Call.glShaderSource (env.createShader GL_FRAGMENT_SHADER) 1 fragment_src,
         Call.glCompileShader (env.createShader GL_FRAGMENT_SHADER),
         Call.glGetShaderiv (env.createShader GL_FRAGMENT_SHADER) GL_COMPILE_STATUS,
         Call.glCreateProgram,
         Call.glAttachShader env.createProgram (env.createShader GL_VERTEX_SHADER),
         Call.glAttachShader env.createProgram (env.createShader GL_FRAGMENT_SHADER),
         Call.glLinkProgram env.createProgram,
         Call.glGetProgramiv env.createProgram GL_LINK_STATUS,
         Call.glDeleteShader (env.createShader GL_VERTEX_SHADER),
         Call.glDeleteShader (env.createShader GL_FRAGMENT_SHADER)]) ∧
    (create_shader_program env vertex_src fragment_src w).2.err =
      w.err ++
        (if env.compileStatus (env.createShader GL_VERTEX_SHADER) = 0 then
          ["ERROR::SHADER::VERTEX::COMPILATION_FAILED\n" ++
            env.shaderInfoLog (env.createShader GL_VERTEX_SHADER) ++ "\n"]
         else []) ++
        (if env.compileStatus (env.createShader GL_FRAGMENT_SHADER) = 0 then
          ["ERROR::SHADER::VERTEX::COMPILATION_FAILED\n" ++
            env.shaderInfoLog (env.createShader GL_FRAGMENT_SHADER) ++ "\n"]
         else []) ++
        (if env.linkStatus env.createProgram = 0 then
          ["ERROR::SHADER::PROGRAM::LINK_FAILED\n" ++
            env.programInfoLog env.createProgram ++ "\n"]
         else []) := by
  refine ⟨?_, rfl, ?_, create_shader_program_err env w vertex_src fragment_src⟩
  · intro t src w'
    cases t <;> rfl
  · obtain ⟨t, ht, hc, hs⟩ := create_shader_program_tail env vertex_src fragment_src w
    refine ⟨t, ht, hc, hs, ?_⟩
    rw [hs]
    exact shaderProgramSteps_without_infoLog env vertex_src fragment_src

/-- C5: when the window and GLEW come up, the calls of `main`, queries apart,
begin with `setup`: the window and context setup and then, in this order,
create, source and compile the vertex shader, the same for the fragment shader,
create the program, attach both shaders, link, delete both shaders; generate
the vertex array and the two buffers, bind the vertex array, bind and fill the
array buffer, bind and fill the element buffer, set up attribute 0, unbind the
vertex array.  When the first iteration of the loop has its poll return (its
key callbacks store inside `KEY_PRESSED`) and its uniform lookup succeed, the
trace holds a `glDrawElements(GL_TRIANGLES, 3, GL_UNSIGNED_INT, 0)` with no
draw call before it, and the calls before it are, queries apart, all of
`setup` followed by the iteration's poll, close requests, clear, `glUseProgram`,
`glUniform4f`, vertex-array bind and `glPolygonMode`. -/
theorem main_setup_call_order (env : Env) (frames : List Frame)
    (hw : env.windowOk = true) (hg : env.glewOk = true) :
    ∃ setup : List Call,
      setup =
        [Call.glfwInit,
         Call.glfwWindowHint GLFW_CONTEXT_VERSION_MAJOR 3,
         Call.glfwWindowHint GLFW_CONTEXT_VERSION_MINOR 3,
         Call.glfwWindowHint GLFW_OPENGL_PROFILE GLFW_OPENGL_CORE_PROFILE,
         Call.glfwWindowHint GLFW_OPENGL_FORWARD_COMPAT 1,
         Call.glfwWindowHint GLFW_RESIZABLE 0,
         Call.glfwCreateWindow 800 600 "LearnOpenGL",
         Call.glfwMakeContextCurrent,
         Call.glewInit,
         Call.glViewport 0 0 env.fbWidth env.fbHeight,
         Call.glfwSetKeyCallback,
         Call.glCreateShader GL_VERTEX_SHADER,
         Call.glShaderSource (env.createShader GL_VERTEX_SHADER) 1 vertex_shader_src,
         Call.glCompileShader (env.createShader GL_VERTEX_SHADER),
         Call.glCreateShader GL_FRAGMENT_SHADER,
         Call.glShaderSource (env.createShader GL_FRAGMENT_SHADER) 1 fragment_shader_src,
         Call.glCompileShader (env.createShader GL_FRAGMENT_SHADER),
         Call.glCreateProgram,
         Call.glAttachShader env.createProgram (env.createShader GL_VERTEX_SHADER),
         Call.glAttachShader env.createProgram (env.createShader GL_FRAGMENT_SHADER),
         Call.glLinkProgram env.createProgram,
         Call.glDeleteShader (env.createShader GL_VERTEX_SHADER),
         Call.glDeleteShader (env.createShader GL_FRAGMENT_SHADER),
         Call.glGenVertexArrays 1,
         Call.glGenBuffers 1,
         Call.glGenBuffers 1,
         Call.glBindVertexArray env.genVertexArray,
         Call.glBindBuffer GL_ARRAY_BUFFER env.genBufferFirst,
         Call.glBufferData GL_ARRAY_BUFFER 36 (Blob.floats vertices) GL_STATIC_DRAW,
         Call.glBindBuffer GL_ELEMENT_ARRAY_BUFFER env.genBufferSecond,
         Call.glBufferData GL_ELEMENT_ARRAY_BUFFER 12 (Blob.uints indices) GL_STATIC_DRAW,
         Call.glVertexAttribPointer 0 3 GL_FLOAT GL_FALSE 12 0,
         Call.glEnableVertexAttribArray 0,
         Call.glBindVertexArray 0] ∧
      (∃ rest, commands (main env frames).2.calls = setup ++ rest) ∧
      ∀ (f : Frame) (fs : List Frame), frames = f :: fs →
        (∀ e ∈ f.events,
          (e.action = GLFW_PRESS ∨ e.action = GLFW_RELEASE) → 0 ≤ e.key ∧ e.key < 1024) →
        f.location ≠ -1 →
        ∃ (pre post : List Call) (r g b : ℚ),
          (main env frames).2.calls =
            pre ++ Call.glDrawElements GL_TRIANGLES 3 GL_UNSIGNED_INT 0 :: post ∧
          pre.filter Call.isDrawElements = [] ∧
          commands pre =
            setup ++ Call.glfwPollEvents :: closeRequests f.events ++
              [Call.glClearColor (1 / 5) (3 / 10) (3 / 10) 1,
               Call.glClear GL_COLOR_BUFFER_BIT,
               Call.glUseProgram env.createProgram,
               Call.glUniform4f f.location r g b 1,
               Call.glBindVertexArray env.genVertexArray,
               Call.glPolygonMode GL_FRONT_AND_BACK GL_FILL] := by
  refine ⟨_, rfl, ?_, ?_⟩
  · obtain ⟨d, hd, -⟩ := main_steps_of_ok env frames hw hg
    refine ⟨commands d, ?_⟩
    rw [commands_eq_steps, hd, commands_append, commands_setupSteps]
  · intro f fs hfs hin hloc
    obtain ⟨w, hc, hsetup, hmain⟩ := main_eq_main_loop_steps env frames hw hg
    obtain ⟨r, g, b, d, hd⟩ := main_loop_first_steps env (mainShader env) (mainTriangle env)
      f fs ⟨0, 0, 0⟩ w hc hin hloc
    have hid : (mainShader env).id = env.createProgram := rfl
    have hvao : (mainTriangle env).VAO = env.genVertexArray := rfl
    have hn : (mainTriangle env).n_indices = 3 := rfl
    have hmode : (mainTriangle env).draw_mode = GL_FILL := rfl
    rw [hid, hvao, hn, hmode, hsetup, ← hfs, ← hmain] at hd
    obtain ⟨pre, post, hcalls, hpre, -⟩ := split_of_steps _ _ _ _ hd
    refine ⟨pre, post, r, g, b, hcalls, ?_, ?_⟩
    · rw [filter_eq_filter_steps Call.isDrawElements rfl, hpre, List.filter_append,
        List.filter_append, setupSteps_no_draw]
      simp [List.filter_cons, Call.isDrawElements, closeRequests, List.filter_eq_nil_iff]
    · rw [commands_eq_steps, hpre, commands_append, commands_append, commands_setupSteps]
      have hq : commands (Call.glfwWindowShouldClose :: Call.glfwPollEvents ::
          closeRequests f.events) = Call.glfwPollEvents :: closeRequests f.events := by
        show commands ([Call.glfwWindowShouldClose, Call.glfwPollEvents] ++
          closeRequests f.events) = _
        rw [commands_append, commands_closeRequests]
        rfl
      rw [hq]
      congr 1
      simp only [commands, Call.isQuery, List.filter_cons, Bool.not_true, Bool.not_false,
        if_true, if_false, Bool.false_eq_true, List.filter_nil]
      norm_num

theorem main_setup_call_order_witness :
    Env.sample.windowOk = true ∧ Env.sample.glewOk = true ∧
    ∃ (pre post : List Call) (r g b : ℚ),
      (main Env.sample [sampleFrame]).2.calls =
        pre ++ Call.glDrawElements GL_TRIANGLES 3 GL_UNSIGNED_INT 0 :: post ∧
      pre.filter Call.isDrawElements = [] ∧
      commands pre =
        [Call.glfwInit,
         Call.glfwWindowHint GLFW_CONTEXT_VERSION_MAJOR 3,
         Call.glfwWindowHint GLFW_CONTEXT_VERSION_MINOR 3,
         Call.glfwWindowHint GLFW_OPENGL_PROFILE GLFW_OPENGL_CORE_PROFILE,
         Call.glfwWindowHint GLFW_OPENGL_FORWARD_COMPAT 1,
         Call.glfwWindowHint GLFW_RESIZABLE 0,
         Call.glfwCreateWindow 800 600 "LearnOpenGL",
         Call.glfwMakeContextCurrent,
         Call.glewInit,
         Call.glViewport 0 0 800 600,
         Call.glfwSetKeyCallback,
         Call.glCreateShader GL_VERTEX_SHADER,
         Call.glShaderSource 1 1 vertex_shader_src,
         Call.glCompileShader 1,
         Call.glCreateShader GL_FRAGMENT_SHADER,
         Call.glShaderSource 2 1 fragment_shader_src,
         Call.glCompileShader 2,
         Call.glCreateProgram,
         Call.glAttachShader 3 1,
         Call.glAttachShader 3 2,
         Call.glLinkProgram 3,
         Call.glDeleteShader 1,
         Call.glDeleteShader 2,
         Call.glGenVertexArrays 1,
         Call.glGenBuffers 1,
         Call.glGenBuffers 1,
         Call.glBindVertexArray 1,
         Call.glBindBuffer GL_ARRAY_BUFFER 1,
         Call.glBufferData GL_ARRAY_BUFFER 36 (Blob.floats vertices) GL_STATIC_DRAW,
         Call.glBindBuffer GL_ELEMENT_ARRAY_BUFFER 2,
         Call.glBufferData GL_ELEMENT_ARRAY_BUFFER 12 (Blob.uints indices) GL_STATIC_DRAW,
         Call.glVertexAttribPointer 0 3 GL_FLOAT GL_FALSE 12 0,
         Call.glEnableVertexAttribArray 0,
         Call.glBindVertexArray 0,
         Call.glfwPollEvents,
         Call.glClearColor (1 / 5) (3 / 10) (3 / 10) 1,
         Call.glClear GL_COLOR_BUFFER_BIT,
         Call.glUseProgram 3,
         Call.glUniform4f 0 r g b 1,
         Call.glBindVertexArray 1,
         Call.glPolygonMode GL_FRONT_AND_BACK GL_FILL] := by
  refine ⟨rfl, rfl, ?_⟩
  obtain ⟨setup, hsetup, -, h⟩ := main_setup_call_order Env.sample [sampleFrame] rfl rfl
  have hin : ∀ e ∈ sampleFrame.events,
      (e.action = GLFW_PRESS ∨ e.action = GLFW_RELEASE) → 0 ≤ e.key ∧ e.key < 1024 := by
    intro e he
    simp only [sampleFrame, List.mem_cons, List.mem_singleton, List.not_mem_nil,
      or_false] at he
    rcases he with rfl | rfl | rfl | rfl | rfl <;> exact fun _ => by decide
  obtain ⟨pre, post, r, g, b, h1, h2, h3⟩ := h sampleFrame [] rfl hin (by decide)
  subst hsetup
  exact ⟨pre, post, r, g, b, h1, h2, h3⟩

/-- C6: an iteration of the main loop whose poll returns and whose uniform
lookup succeeds completes and issues, queries apart and in this order (after
the poll and the close requests of its callbacks): `glClearColor(0.2, 0.3,
0.3, 1.0)`, `glClear(GL_COLOR_BUFFER_BIT)`, `glUseProgram` with the program's
id, `glUniform4f` with the frame's red, green, blue and 1, the triangle's
vertex-array bind, `glPolygonMode`, `glDrawElements(GL_TRIANGLES, 3,
GL_UNSIGNED_INT, 0)`, the unbind, `glfwSwapBuffers`.  The draw is the only one
of the iteration and is issued while the triangle's vertex array is bound, and
`draw_mesh` returns with vertex array 0 bound. -/
theorem main_loop_redraws (env : Env) (f : Frame) (l : Locals) (w : World)
    (hpoll : (glfwPollEvents f.events w).2 = true) (hloc : f.location ≠ -1) :
    (main_loop_body env (mainShader env) (mainTriangle env) f l w).1 = Flow.next ∧
    commands (main_loop_body env (mainShader env) (mainTriangle env) f l w).2.2.calls =
      commands w.calls ++ Call.glfwPollEvents :: closeRequests f.events ++
        [Call.glClearColor (1 / 5) (3 / 10) (3 / 10) 1,
         Call.glClear GL_COLOR_BUFFER_BIT,
         Call.glUseProgram env.createProgram,
         Call.glUniform4f f.location
           (main_loop_body env (mainShader env) (mainTriangle env) f l w).2.1.redValue
           (main_loop_body env (mainShader env) (mainTriangle env) f l w).2.1.greenValue
           (main_loop_body env (mainShader env) (mainTriangle env) f l w).2.1.blueValue
           1,
         Call.glBindVertexArray env.genVertexArray,
         Call.glPolygonMode GL_FRONT_AND_BACK GL_FILL,
         Call.glDrawElements GL_TRIANGLES 3 GL_UNSIGNED_INT 0,
         Call.glBindVertexArray 0,
         Call.glfwSwapBuffers] ∧
    (∃ pre post,
      (main_loop_body env (mainShader env) (mainTriangle env) f l w).2.2.calls =
        pre ++ Call.glDrawElements GL_TRIANGLES 3 GL_UNSIGNED_INT 0 :: post ∧
      boundVertexArray pre = env.genVertexArray) ∧
    (main_loop_body env (mainShader env) (mainTriangle env) f l w).2.2.calls.filter
        Call.isDrawElements =
      w.calls.filter Call.isDrawElements ++
        [Call.glDrawElements GL_TRIANGLES 3 GL_UNSIGNED_INT 0] ∧
    ∀ (mesh : Mesh) (w' : World), boundVertexArray (draw_mesh env mesh w').calls = 0 := by
  have hsteps := main_loop_body_steps_of_ok env (mainShader env) (mainTriangle env)
    f l w hpoll hloc
  have hid : (mainShader env).id = env.createProgram := rfl
  have hvao : (mainTriangle env).VAO = env.genVertexArray := rfl
  have hn : (mainTriangle env).n_indices = 3 := rfl
  have hmode : (mainTriangle env).draw_mode = GL_FILL := rfl
  rw [hid, hvao, hn, hmode] at hsteps
  refine ⟨?_, ?_, ?_, ?_, ?_⟩
  · rw [main_loop_body_of_poll _ _ _ _ _ _ hpoll, main_loop_frame_flow, if_neg hloc]
  · rw [commands_eq_steps, hsteps, commands_append, commands_append,
      ← commands_eq_steps w.calls]
    have hq : commands (Call.glfwPollEvents :: closeRequests f.events) =
        Call.glfwPollEvents :: closeRequests f.events := by
      show commands ([Call.glfwPollEvents] ++ closeRequests f.events) = _
      rw [commands_append, commands_closeRequests]
      rfl
    rw [hq]
    congr 1
    simp only [commands, Call.isQuery, List.filter_cons, Bool.not_true, Bool.not_false,
      if_true, if_false, Bool.false_eq_true, List.filter_nil]
    norm_num
  · rw [main_loop_body_of_poll _ _ _ _ _ _ hpoll]
    simp only [main_loop_frame, if_neg hloc]
    obtain ⟨pre, post, h1, -, h3, -, -, -⟩ := draw_mesh_calls env (mainTriangle env)
      (gl env (Call.glUniform4f f.location _ _ _ 1)
        (use_shader env (mainShader env)
          (gl env (Call.glGetUniformLocation (mainShader env).id "ourColor")
            (clear_screen env
              { glfw Call.glfwGetTime (glfwPollEvents f.events w).1 with
                deltaTime := f.time - (glfw Call.glfwGetTime (glfwPollEvents f.events w).1).lastFrame
                lastFrame := f.time }))))
    rw [hn] at h1
    refine ⟨pre, post ++ [Call.glfwSwapBuffers], ?_, by rw [h3, hvao]⟩
    rw [glfw_calls]
    simp only [] at h1 ⊢
    rw [h1]
    simp
  · rw [filter_eq_filter_steps Call.isDrawElements rfl, hsteps, List.filter_append,
      List.filter_append, ← filter_eq_filter_steps Call.isDrawElements rfl w.calls]
    simp [List.filter_cons, Call.isDrawElements, closeRequests, List.filter_eq_nil_iff]
  · intro mesh w'
    obtain ⟨_, _, _, _, _, _, _, h⟩ := draw_mesh_calls env mesh w'
    exact h

theorem main_loop_redraws_witness :
    (main_loop_body Env.sample (mainShader Env.sample)
        (mainTriangle Env.sample) sampleFrame
        ⟨0, 0, 0⟩ World.start).2.2.calls.filter Call.isDrawElements =
      [Call.glDrawElements GL_TRIANGLES 3 GL_UNSIGNED_INT 0] :=
  (main_loop_redraws Env.sample sampleFrame ⟨0, 0, 0⟩ World.start
    sampleFrame_poll (by decide)).2.2.2.1

/-- C7: for `int` arguments with `0 ≤ 12 * n_vertices < 2^31`, `create_mesh`
makes exactly two `glBufferData` calls, of `12 * n_vertices` bytes from
`vertices` to `GL_ARRAY_BUFFER` and of `4 * n_indices` bytes from `indices` to
`GL_ELEMENT_ARRAY_BUFFER`, and returns a mesh with the given `n_indices` and
shader; for `create_mesh(3, vertices, 3, indices, shader)`, the call of `main`
and the only place where `main` fills a buffer, the sizes are 36 and 12 bytes,
the sizes of the 9-float `vertices` and the 3-entry `indices`, and every entry
of `indices` is below the vertex count 3. -/
theorem create_mesh_upload (env : Env) (n_vertices n_indices : Int) (vs : List ℚ)
    (is : List Nat) (shader : ShaderProgram) (w : World)
    (hv : 0 ≤ 12 * n_vertices ∧ 12 * n_vertices < 2 ^ 31)
    (hi : -2 ^ 31 ≤ n_indices ∧ n_indices < 2 ^ 31) :
    (create_mesh env n_vertices vs n_indices is shader w).2.calls.filter Call.isBufferData =
      w.calls.filter Call.isBufferData ++
        [Call.glBufferData GL_ARRAY_BUFFER (12 * n_vertices) (Blob.floats vs) GL_STATIC_DRAW,
         Call.glBufferData GL_ELEMENT_ARRAY_BUFFER (4 * n_indices) (Blob.uints is)
           GL_STATIC_DRAW] ∧
    (create_mesh env n_vertices vs n_indices is shader w).1.n_indices = n_indices ∧
    (create_mesh env n_vertices vs n_indices is shader w).1.shader = shader ∧
    (create_mesh env 3 vertices 3 indices shader w).2.calls.filter Call.isBufferData =
      w.calls.filter Call.isBufferData ++
        [Call.glBufferData GL_ARRAY_BUFFER 36 (Blob.floats vertices) GL_STATIC_DRAW,
         Call.glBufferData GL_ELEMENT_ARRAY_BUFFER 12 (Blob.uints indices) GL_STATIC_DRAW] ∧
    (∀ frames : List Frame, env.windowOk = true → env.glewOk = true →
      (main env frames).2.calls.filter Call.isBufferData =
        [Call.glBufferData GL_ARRAY_BUFFER 36 (Blob.floats vertices) GL_STATIC_DRAW,
         Call.glBufferData GL_ELEMENT_ARRAY_BUFFER 12 (Blob.uints indices) GL_STATIC_DRAW]) ∧
    sizeof_GLfloat * vertices.length = 36 ∧ vertices.length = 9 ∧
    sizeof_GLuint * indices.length = 12 ∧ indices.length = 3 ∧
    ∀ i ∈ indices, i < 3 := by
  have key : ∀ (nv ni : Int) (vs' : List ℚ) (is' : List Nat),
      (0 ≤ 12 * nv ∧ 12 * nv < 2 ^ 31) → (-2 ^ 31 ≤ ni ∧ ni < 2 ^ 31) →
      (create_mesh env nv vs' ni is' shader w).2.calls.filter Call.isBufferData =
        w.calls.filter Call.isBufferData ++
          [Call.glBufferData GL_ARRAY_BUFFER (12 * nv) (Blob.floats vs') GL_STATIC_DRAW,
           Call.glBufferData GL_ELEMENT_ARRAY_BUFFER (4 * ni) (Blob.uints is')
             GL_STATIC_DRAW] := by
    intro nv ni vs' is' h1 h2
    rw [filter_steps_isBufferData, create_mesh_steps, List.filter_append,
      ← filter_steps_isBufferData]
    simp only [meshSteps, vertices_size_eq nv h1, indices_size_eq ni h2]
    rfl
  refine ⟨key _ _ _ _ hv hi, rfl, rfl, ?_, ?_, by decide, by decide, by decide, by decide,
    by decide⟩
  · exact key 3 3 vertices indices (by norm_num) (by norm_num)
  · intro frames hw hg
    exact main_bufferData env frames hw hg

theorem create_mesh_upload_witness :
    (create_mesh Env.sample 4 [0, 0, 0, 1, 0, 0, 1, 1, 0, 0, 1, 0] 6 [0, 1, 3, 1, 2, 3]
        (mainShader Env.sample) World.start).2.calls.filter Call.isBufferData =
      [Call.glBufferData GL_ARRAY_BUFFER 48
         (Blob.floats [0, 0, 0, 1, 0, 0, 1, 1, 0, 0, 1, 0]) GL_STATIC_DRAW,
       Call.glBufferData GL_ELEMENT_ARRAY_BUFFER 24 (Blob.uints [0, 1, 3, 1, 2, 3])
         GL_STATIC_DRAW] :=
  (create_mesh_upload Env.sample 4 6 [0, 0, 0, 1, 0, 0, 1, 1, 0, 0, 1, 0] [0, 1, 3, 1, 2, 3]
    (mainShader Env.sample) World.start (by norm_num) (by norm_num)).1

/-- C8 as stated fails: with shaders that do not compile the uniform is not
found; when Escape is pressed in the first frame the close request is made,
yet `main` returns 1 and never calls `glfwTerminate`. -/
theorem main_escape_then_lookup_failure :
    Call.glfwSetWindowShouldClose GL_TRUE ∈ (main Env.broken [escapeFrameNoUniform]).2.calls ∧
    (main Env.broken [escapeFrameNoUniform]).1 = Outcome.returned 1 ∧
    Call.glfwTerminate ∉ (main Env.broken [escapeFrameNoUniform]).2.calls := by
  decide!

/-- C8, amended: `key_callback` requests window close
(`glfwSetWindowShouldClose(window, GL_TRUE)`) exactly for a press of Escape and
never clears the close flag; `main` enters its loop with the flag clear; the
loop starts an iteration only while the flag is clear, and once it is set
`main` calls `glfwTerminate` and returns 0; an iteration in which Escape is
pressed, whose poll returns and whose uniform lookup succeeds, is the last:
after it the test of the flag, `glfwTerminate` and `return 0` follow, whatever
frames would come next. -/
theorem escape_closes_window (env : Env) (shader : ShaderProgram) (triangle : Mesh) :
    (∀ (e : KeyEvent) (w : World),
      match key_callback e.key e.scancode e.action e.mode w with
      | some w' =>
        w'.calls = w.calls ++
          (if e.key = GLFW_KEY_ESCAPE ∧ e.action = GLFW_PRESS
            then [Call.glfwSetWindowShouldClose GL_TRUE] else []) ∧
        w'.shouldClose = (w.shouldClose || decide (e.key = GLFW_KEY_ESCAPE ∧ e.action = GLFW_PRESS))
      | none => ¬(e.key = GLFW_KEY_ESCAPE ∧ e.action = GLFW_PRESS)) ∧
    (∀ frames : List Frame, env.windowOk = true → env.glewOk = true →
      ∃ w, w.shouldClose = false ∧
        main env frames =
          main_loop env (mainShader env) (mainTriangle env) frames
            { greenValue := 0, redValue := 0, blueValue := 0 } w) ∧
    (∀ (fs : List Frame) (l : Locals) (w : World), w.shouldClose = true →
      main_loop env shader triangle fs l w =
        (Outcome.returned 0, glfw Call.glfwTerminate (glfw Call.glfwWindowShouldClose w))) ∧
    (∀ (f : Frame) (fs : List Frame) (l : Locals) (w : World), w.shouldClose = false →
      (∃ e ∈ f.events, e.key = GLFW_KEY_ESCAPE ∧ e.action = GLFW_PRESS) →
      (glfwPollEvents f.events (glfw Call.glfwWindowShouldClose w)).2 = true →
      f.location ≠ -1 →
      main_loop env shader triangle (f :: fs) l w =
        (Outcome.returned 0,
          glfw Call.glfwTerminate (glfw Call.glfwWindowShouldClose
            (main_loop_body env shader triangle f l
              (glfw Call.glfwWindowShouldClose w)).2.2))) := by
  refine ⟨?_, ?_, ?_, ?_⟩
  · intro e w
    cases h : key_callback e.key e.scancode e.action e.mode w with
    | some w' =>
      obtain ⟨h1, h2, -⟩ := key_callback_frame e w w' h
      refine ⟨?_, ?_⟩
      · rw [h1]
        by_cases hesc : e.key = GLFW_KEY_ESCAPE ∧ e.action = GLFW_PRESS <;>
        simp [closeRequests, KeyEvent.isEscapePress, hesc]
      · rw [h2]; rfl
    | none =>
      intro hesc
      have hk : 0 ≤ e.key ∧ e.key < 1024 := by rw [hesc.1]; decide
      obtain ⟨w', hw'⟩ := key_callback_isSome e w (fun _ => hk)
      rw [hw'] at h
      cases h
  · intro frames hw hg
    exact main_eq_main_loop env frames hw hg
  · intro fs l w h
    exact main_loop_of_shouldClose env shader triangle fs l w h
  · intro f fs l w hw hesc hpoll hloc
    have hflow : (main_loop_body env shader triangle f l
        (glfw Call.glfwWindowShouldClose w)).1 = Flow.next := by
      rw [main_loop_body_of_poll _ _ _ _ _ _ hpoll, main_loop_frame_flow, if_neg hloc]
    have hclose : (main_loop_body env shader triangle f l
        (glfw Call.glfwWindowShouldClose w)).2.2.shouldClose = true := by
      rw [main_loop_body_of_poll _ _ _ _ _ _ hpoll, main_loop_frame_shouldClose,
        glfwPollEvents_shouldClose _ _ hpoll]
      obtain ⟨e, he, hk⟩ := hesc
      have : f.events.any KeyEvent.isEscapePress = true :=
        List.any_eq_true.mpr ⟨e, he, by simp [KeyEvent.isEscapePress, hk]⟩
      rw [this, Bool.or_true]
    rw [main_loop]
    simp only [glfw_shouldClose, hw, Bool.false_eq_true, if_false, hflow]
    exact main_loop_of_shouldClose env shader triangle fs _ _ hclose

theorem escape_closes_window_witness :
    main_loop Env.sample (mainShader Env.sample) (mainTriangle Env.sample) [escapeFrame, sampleFrame]
        ⟨0, 0, 0⟩ World.start =
      (Outcome.returned 0,
        glfw Call.glfwTerminate (glfw Call.glfwWindowShouldClose
          (main_loop_body Env.sample (mainShader Env.sample) (mainTriangle Env.sample) escapeFrame ⟨0, 0, 0⟩
            (glfw Call.glfwWindowShouldClose World.start)).2.2)) :=
  (escape_closes_window Env.sample (mainShader Env.sample) (mainTriangle Env.sample)).2.2.2 escapeFrame
    [sampleFrame] ⟨0, 0, 0⟩ World.start rfl
    ⟨⟨GLFW_KEY_ESCAPE, 9, GLFW_PRESS, 0⟩, by simp [escapeFrame], rfl, rfl⟩ (by decide)
    (by decide)

/-- C9 (the code's defect): GLFW delivers `GLFW_KEY_UNKNOWN` (-1) to the key
callback, and for it `KEY_PRESSED[key]` names no element of the array: the
store of `key_callback`, on press and on release, is out of bounds. -/
theorem key_callback_unknown_key_out_of_bounds :
    keySlot GLFW_KEY_UNKNOWN = none ∧
    key_callback GLFW_KEY_UNKNOWN 0 GLFW_PRESS 0 World.start = none ∧
    key_callback GLFW_KEY_UNKNOWN 0 GLFW_RELEASE 0 World.start = none := by
  refine ⟨by decide, ?_, ?_⟩ <;> simp [key_callback, keySlot, GLFW_KEY_UNKNOWN, GLFW_PRESS,
    GLFW_RELEASE, GLFW_KEY_ESCAPE]

/-- C10: with `glGetError` popping a finite queue of pending non-zero codes,
`glCheckError_ file line` terminates, returns `GL_NO_ERROR` however many errors
were pending, leaves the queue empty, polls once per pending error and once
more, and prints one line per pending error, in queue order: the code's known
name (empty for any other code), then `" | "`, the file, `" ("`, the line and
`")"`, then the end of line. -/
theorem glCheckError_drains_queue (file : String) (line : Int) (w : World)
    (h : ∀ e ∈ w.errq, e ≠ GL_NO_ERROR) :
    (glCheckError_ file line w).1 = GL_NO_ERROR ∧
    (glCheckError_ file line w).2.errq = [] ∧
    (glCheckError_ file line w).2.out =
      w.out ++ w.errq.map
        (fun e => errorName e ++ " | " ++ file ++ " (" ++ toString line ++ ")" ++ "\n") ∧
    (glCheckError_ file line w).2.calls =
      w.calls ++ List.replicate (w.errq.length + 1) Call.glGetError := by
  unfold glCheckError_
  rw [glCheckError_loop_drains file line w.errq w h]
  refine ⟨rfl, rfl, ?_, rfl⟩
  show w.out ++ w.errq.map (errorLine file line) = _
  congr 1
  apply List.map_congr_left
  intro e _
  simp only [errorLine, errorString_eq_errorName]

theorem glCheckError_drains_queue_witness :
    (glCheckError_ "main.cpp" 87
        { World.start with errq := [GL_INVALID_ENUM, 7, GL_OUT_OF_MEMORY] }).2.out =
      ["INVALID_ENUM | main.cpp (87)\n", " | main.cpp (87)\n", "OUT_OF_MEMORY | main.cpp (87)\n"] :=
  (glCheckError_drains_queue "main.cpp" 87
    { World.start with errq := [GL_INVALID_ENUM, 7, GL_OUT_OF_MEMORY] }
    (by decide)).2.2.1.trans (by decide)

end LearnOpenGL
